import Mathlib

/-!
Shallow embedding of the Splinter admin service coordinator
(`src/libsplinter/src/admin/service/shared.rs`) and proofs about it.

Modelling conventions:
* Protobuf messages are embedded as plain Lean structures.  A payload carries
  both its raw header bytes (used for emptiness checks and signing) and the
  structured header; `Message::parse_from_bytes` is modelled as always
  returning the structured header (marshalling failures are orthogonal to the
  properties below).
* The store-level proposal type (`store::CircuitProposal`) and the protobuf
  proposal type are isomorphic in the source (`from_proto` / `into_proto`);
  the embedding uses one type `CircuitProposal` for both.
* External collaborators (signature verifier, key verifier, key permission
  manager, peer connector, orchestrator, hash function) are injected as
  function-valued fields of the coordinator state, mirroring the trait
  objects injected at construction in the source.
* `HashMap` / `HashSet` fields are embedded as association lists / lists with
  set-like insertion; hash-set equality is mutual containment.
* The feature gates `circuit-disband`, `circuit-purge`, `circuit-abandon` and
  `admin-service-event-store` are taken as enabled, matching the claims.
-/

deriving instance DecidableEq for Except

namespace Splinter

/-- Byte strings (public keys, signatures, header bytes). -/
abbrev Bytes := List Nat

/-- Protocol constants. Modelled from the spec: `crate::protocol` constants
(`ADMIN_SERVICE_PROTOCOL_MIN`, `ADMIN_SERVICE_PROTOCOL_VERSION`,
`CIRCUIT_PROTOCOL_VERSION`) are not part of the provided sources; the spec
describes them as construction-time configuration with the circuit schema
version and admin protocol version both at their current value. -/
def ADMIN_SERVICE_PROTOCOL_MIN : Nat := 1

/-- Current admin service protocol version (see `ADMIN_SERVICE_PROTOCOL_MIN`). -/
def ADMIN_SERVICE_PROTOCOL_VERSION : Nat := 2

/-- Current circuit schema version (see `ADMIN_SERVICE_PROTOCOL_MIN`). -/
def CIRCUIT_PROTOCOL_VERSION : Nat := 2

/-- `static VOTER_ROLE: &str = "voter"`. -/
def VOTER_ROLE : String := "voter"

/-- `static PROPOSER_ROLE: &str = "proposer"`. -/
def PROPOSER_ROLE : String := "proposer"

/-- `admin_service_id(node_id)`: the admin service id of a node. -/
def admin_service_id (node_id : String) : String := "admin::" ++ node_id

/-- `Circuit_AuthorizationType`. -/
inductive AuthorizationType
  | unset
  | trust
deriving DecidableEq, Repr

/-- `Circuit_PersistenceType`. -/
inductive PersistenceType
  | unset
  | any
deriving DecidableEq, Repr

/-- `Circuit_DurabilityType`. -/
inductive DurabilityType
  | unset
  | noDurability
deriving DecidableEq, Repr

/-- `Circuit_RouteType`. -/
inductive RouteType
  | unset
  | any
deriving DecidableEq, Repr

/-- `Circuit_CircuitStatus` (protobuf). -/
inductive CircuitStatusProto
  | unset
  | active
  | disbanded
  | abandoned
deriving DecidableEq, Repr

/-- `store::CircuitStatus`. -/
inductive StoreCircuitStatus
  | active
  | disbanded
  | abandoned
deriving DecidableEq, Repr

/-- Protobuf `SplinterNode` / store `CircuitNode`: a node id and its endpoints. -/
structure SplinterNode where
  node_id : String
  endpoints : List String
deriving DecidableEq, Repr

/-- Protobuf `SplinterService`: a service definition inside a proposed circuit. -/
structure SplinterService where
  service_id : String
  service_type : String
  allowed_nodes : List String
  arguments : List (String × String)
deriving DecidableEq, Repr

/-- Protobuf `Circuit`: a proposed circuit definition.
(`application_metadata` and `comments` are not consulted by the embedded
coordinator code and are omitted.) -/
structure Circuit where
  circuit_id : String
  roster : List SplinterService
  members : List SplinterNode
  authorization_type : AuthorizationType
  persistence : PersistenceType
  durability : DurabilityType
  routes : RouteType
  circuit_management_type : String
  display_name : String
  circuit_version : Nat
  circuit_status : CircuitStatusProto
deriving DecidableEq, Repr

/-- `store::Service`: a service of a committed circuit (single allowed node). -/
structure StoreService where
  service_id : String
  service_type : String
  node_id : String
  arguments : List (String × String)
deriving DecidableEq, Repr

/-- `store::Circuit`: a committed circuit record. -/
structure StoreCircuit where
  circuit_id : String
  roster : List StoreService
  members : List String
  authorization_type : AuthorizationType
  persistence : PersistenceType
  durability : DurabilityType
  routes : RouteType
  circuit_management_type : String
  display_name : Option String
  circuit_version : Nat
  circuit_status : StoreCircuitStatus
deriving DecidableEq, Repr

/-- Protobuf `CircuitProposalVote_Vote`. -/
inductive VoteOption
  | unset
  | accept
  | reject
deriving DecidableEq, Repr

/-- `store::Vote`. -/
inductive Vote
  | accept
  | reject
deriving DecidableEq, Repr

/-- `store::VoteRecord`. -/
structure VoteRecord where
  public_key : Bytes
  vote : Vote
  voter_node_id : String
deriving DecidableEq, Repr

/-- `CircuitProposal_ProposalType` (only `CREATE` and `DISBAND` are produced
by the coordinator). -/
inductive ProposalType
  | create
  | disband
deriving DecidableEq, Repr

/-- `CircuitProposal` (protobuf) and `store::CircuitProposal`, identified via
their `from_proto` / `into_proto` bijection.  `circuit` is the proposed
circuit (protobuf field `circuit_proposal`). -/
structure CircuitProposal where
  proposal_type : ProposalType
  circuit_id : String
  circuit_hash : String
  circuit : Circuit
  requester : Bytes
  requester_node_id : String
  votes : List VoteRecord
deriving DecidableEq, Repr

/-- `CircuitManagementPayload_Action`. -/
inductive PayloadAction
  | unset
  | circuitCreateRequest
  | circuitProposalVote
  | circuitDisbandRequest
  | circuitPurgeRequest
  | circuitAbandon
deriving DecidableEq, Repr

/-- `CircuitManagementPayload_Header`. -/
structure PayloadHeader where
  action : PayloadAction
  requester : Bytes
  requester_node_id : String
deriving DecidableEq, Repr

/-- Protobuf `CircuitProposalVote`. -/
structure CircuitProposalVote where
  circuit_id : String
  circuit_hash : String
  vote : VoteOption
deriving DecidableEq, Repr

/-- `CircuitManagementPayload`.  `header_bytes` is the separately-encoded
header, `header` its (modelled) parse; the embedded request fields are
always present, with protobuf defaults when unused. -/
structure CircuitManagementPayload where
  header_bytes : Bytes
  header : PayloadHeader
  signature : Bytes
  circuit_create_request : Circuit
  circuit_proposal_vote : CircuitProposalVote
  circuit_disband_request : String
  circuit_purge_request : String
  circuit_abandon : String
deriving DecidableEq, Repr

/-- A consensus-level proposal (`crate::consensus::Proposal`), opaque to the
coordinator except for its identifier. -/
structure ConsensusProposal where
  id : String
deriving DecidableEq, Repr

/-- `PayloadType`. -/
inductive PayloadType
  | circuit (payload : CircuitManagementPayload)
  | consensus (id : String) (proposal : ConsensusProposal)
      (payload : CircuitManagementPayload)
deriving DecidableEq, Repr

/-- `PendingPayload`. -/
structure PendingPayload where
  unpeered_ids : List String
  missing_protocol_ids : List String
  payload_type : PayloadType
  members : List String
  message_sender : String
deriving DecidableEq, Repr

/-- `messages::AdminServiceEvent`. -/
inductive AdminServiceEvent
  | proposalSubmitted (proposal : CircuitProposal)
  | proposalVote (proposal : CircuitProposal) (key : Bytes)
  | proposalAccepted (proposal : CircuitProposal) (key : Bytes)
  | proposalRejected (proposal : CircuitProposal) (key : Bytes)
  | circuitReady (proposal : CircuitProposal)
  | circuitDisbanded (proposal : CircuitProposal)
deriving DecidableEq, Repr

/-- `store::AdminServiceEvent`: an event as persisted, with its id and
management-type index. -/
structure StoredEvent where
  event_id : Nat
  management_type : String
  event : AdminServiceEvent
deriving DecidableEq, Repr

/-- The durable admin event store (backend external to the core, modelled by
its observable contract: an append-only log with increasing ids; `fail`
models an I/O failure of `add_event`). -/
structure EventStoreState where
  events : List StoredEvent
  next_id : Nat
  fail : Bool

/-- `AdminSubscriberError`. -/
inductive AdminSubscriberError
  | unsubscribe
  | unableToHandleEvent (msg : String)

/-- An `AdminServiceEventSubscriber` trait object. -/
structure Subscriber where
  handle_event : StoredEvent → Except AdminSubscriberError Unit

/-- `AdminMessage` variants sent by the embedded coordinator code. -/
inductive AdminMessage
  | memberReady (circuit_id member_node_id : String)
  | disbandedCircuit (circuit_id member_node_id : String)
  | abandonedCircuit (circuit_id member_node_id : String)
  | serviceProtocolVersionRequest (protocol_min protocol_max : Nat)

/-- `UninitializedCircuit`. -/
structure UninitializedCircuit where
  circuit : Option CircuitProposal
  ready_members : List String

/-- `PendingDisbandedCircuit`. -/
structure PendingDisbandedCircuit where
  circuit : Option CircuitProposal
  ready_members : List String

/-- `CircuitProposalContext`: the single pending-changes slot content. -/
structure CircuitProposalContext where
  circuit_proposal : CircuitProposal
  action : PayloadAction
  signer_public_key : Bytes
deriving DecidableEq, Repr

/-- `ServiceDefinition` handed to the orchestrator. -/
structure ServiceDefinition where
  circuit : String
  service_id : String
  service_type : String
deriving DecidableEq, Repr

/-- `AdminSharedError` (variants used by the embedded code). -/
inductive AdminSharedError
  | validationFailed (msg : String)
  | splinterStateError (msg : String)
  | serviceProtocolError (msg : String)
  | noPendingChanges
  | unknownAction (msg : String)
  | serviceInitializationFailed (msg : String)
  | internalError (msg : String)
deriving DecidableEq, Repr

/-- `ServiceError` as surfaced by `submit` and friends:
`UnableToHandleMessage` boxes either an `AdminSharedError` or an error of an
external collaborator (signature verifier, peer connector), modelled by the
second constructor. -/
inductive ServiceError
  | unableToHandleMessage (err : AdminSharedError)
  | unableToHandleMessageExternal (msg : String)
deriving DecidableEq, Repr

/-! ### Admin store

Modelled from the spec: the persistent `AdminStore` backend is not part of
the provided sources (only its callers are).  The spec describes it as an
interface holding circuits, proposals and member nodes with
`get/add/remove_proposal`, `get/add/remove/update_circuit`,
`upgrade_proposal_to_circuit` and `list_nodes`.  `add_proposal` must replace
an existing proposal with the same circuit id: scenario S1 of the spec
commits a vote onto an already-stored proposal through the same
`add_proposal` call. -/

/-- In-memory model of the `AdminStore` contract. -/
structure AdminStore where
  proposals : List CircuitProposal
  circuits : List StoreCircuit
  nodes : List SplinterNode
deriving DecidableEq, Repr

/-- `AdminStore::get_proposal`. -/
def AdminStore.get_proposal (st : AdminStore) (circuit_id : String) :
    Option CircuitProposal :=
  st.proposals.find? (fun p => p.circuit_id == circuit_id)

/-- `AdminStore::add_proposal` (upsert keyed by circuit id, see above). -/
def AdminStore.add_proposal (st : AdminStore) (proposal : CircuitProposal) :
    AdminStore :=
  { st with proposals :=
      (st.proposals.filter (fun p => p.circuit_id != proposal.circuit_id))
        ++ [proposal] }

/-- `AdminStore::remove_proposal`. -/
def AdminStore.remove_proposal (st : AdminStore) (circuit_id : String) :
    AdminStore :=
  { st with proposals :=
      st.proposals.filter (fun p => p.circuit_id != circuit_id) }

/-- `AdminStore::get_circuit`. -/
def AdminStore.get_circuit (st : AdminStore) (circuit_id : String) :
    Option StoreCircuit :=
  st.circuits.find? (fun c => c.circuit_id == circuit_id)

/-- `AdminStore::update_circuit` (replace keyed by circuit id). -/
def AdminStore.update_circuit (st : AdminStore) (circuit : StoreCircuit) :
    AdminStore :=
  { st with circuits :=
      st.circuits.map (fun c =>
        if c.circuit_id == circuit.circuit_id then circuit else c) }

/-- `AdminStore::remove_circuit`. -/
def AdminStore.remove_circuit (st : AdminStore) (circuit_id : String) :
    AdminStore :=
  { st with circuits :=
      st.circuits.filter (fun c => c.circuit_id != circuit_id) }

/-- Conversion of a proposed service to a store service (first allowed node
becomes the service node). -/
def SplinterService.toStoreService (s : SplinterService) : StoreService :=
  { service_id := s.service_id
    service_type := s.service_type
    node_id := s.allowed_nodes.headD ""
    arguments := s.arguments }

/-- Conversion of a protobuf circuit status to a store status (unset is
treated as active, the 0.4-compatibility default). -/
def CircuitStatusProto.toStore : CircuitStatusProto → StoreCircuitStatus
  | .unset => .active
  | .active => .active
  | .disbanded => .disbanded
  | .abandoned => .abandoned

/-- Conversion of a store status back to the protobuf status. -/
def StoreCircuitStatus.toProto : StoreCircuitStatus → CircuitStatusProto
  | .active => .active
  | .disbanded => .disbanded
  | .abandoned => .abandoned

/-- `store::Circuit::try_from(&Circuit)`: conversion of a proposed circuit to
a store circuit record. -/
def Circuit.toStoreCircuit (c : Circuit) : StoreCircuit :=
  { circuit_id := c.circuit_id
    roster := c.roster.map SplinterService.toStoreService
    members := c.members.map (fun m => m.node_id)
    authorization_type := c.authorization_type
    persistence := c.persistence
    durability := c.durability
    routes := c.routes
    circuit_management_type := c.circuit_management_type
    display_name := if c.display_name == "" then none else some c.display_name
    circuit_version := c.circuit_version
    circuit_status := c.circuit_status.toStore }

/-- `AdminStore::upgrade_proposal_to_circuit`: replace a stored proposal by
the circuit (and member nodes) it proposed. -/
def AdminStore.upgrade_proposal_to_circuit (st : AdminStore)
    (circuit_id : String) : AdminStore :=
  match st.get_proposal circuit_id with
  | none => st
  | some proposal =>
    { proposals := st.proposals.filter (fun p => p.circuit_id != circuit_id)
      circuits := st.circuits ++ [proposal.circuit.toStoreCircuit]
      nodes := st.nodes ++ (proposal.circuit.members.filter
        (fun m => st.nodes.all (fun n => n.node_id != m.node_id))) }

/-! ### Coordinator state -/

/-- `AdminServiceShared`: the coordinator state together with its injected
external collaborators (function-valued fields).  `peer_refs` maps a peer id
to its reference count (length of the `Vec<PeerRef>` in the source);
`sent_messages` logs `network_sender.send` calls; `forwarded_proposals` logs
`proposal_sender.send(ProposalReceived(..))` calls; `routing_circuits` is the
set of circuit ids registered with the routing table writer. -/
structure AdminServiceShared where
  node_id : String
  uninitialized_circuits : List (String × UninitializedCircuit)
  pending_consensus_disbanded_circuits : List (String × PendingDisbandedCircuit)
  peer_refs : String → Nat
  network_sender : Bool
  sent_messages : List (String × AdminMessage)
  unpeered_payloads : List PendingPayload
  pending_protocol_payloads : List PendingPayload
  service_protocols : String → Option Nat
  pending_circuit_payloads : List CircuitManagementPayload
  pending_consensus_proposals :
    List (String × (ConsensusProposal × CircuitManagementPayload))
  pending_changes : Option CircuitProposalContext
  current_consensus_verifiers : List String
  proposal_sender : Bool
  forwarded_proposals : List (ConsensusProposal × String)
  admin_store : AdminStore
  event_store : EventStoreState
  event_subscribers : List (String × List Subscriber)
  routing_circuits : List String
  key_verifier : String → Bytes → Bool
  key_permission_manager : Bytes → String → Bool
  signature_verifier : Bytes → Bytes → Bytes → Except String Bool
  peer_connector : String → Bool
  hash_circuit : Circuit → String
  hash_proposal : CircuitProposal → String
  orchestrator_supported_types : List String
  orchestrator_initialize_service :
    ServiceDefinition → List (String × String) → Except String Unit
  orchestrator_stop_service : ServiceDefinition → Except String Unit
  orchestrator_purge_service : ServiceDefinition → Except String Unit

/-! ### Pure helpers and validation -/

/-- `messages::is_valid_circuit_id`. Modelled from the spec: circuit
identifier grammar is two 5-character base62 halves joined by a dash. -/
def is_valid_circuit_id (s : String) : Bool :=
  let cs := s.toList
  cs.length == 11
    && (cs.take 5).all Char.isAlphanum
    && cs.getD 5 " ".front == "-".front
    && (cs.drop 6).all Char.isAlphanum

/-- `messages::is_valid_service_id`. Modelled from the spec: service
identifier grammar is a 4-character base62 string. -/
def is_valid_service_id (s : String) : Bool :=
  let cs := s.toList
  cs.length == 4 && cs.all Char.isAlphanum

/-- `AdminServiceShared::validate_key`: the key must be exactly 33 bytes. -/
def AdminServiceShared.validate_key (_s : AdminServiceShared)
    (public_key : Bytes) : Except AdminSharedError Unit :=
  if public_key.length != 33 then
    .error (.validationFailed "not a valid public key: invalid length")
  else
    .ok ()

/-- `AdminServiceShared::verify_signature`: re-parse the header and ask the
configured verifier whether the signature verifies the header bytes under
the requester public key.  Note the `bool` result. -/
def AdminServiceShared.verify_signature (s : AdminServiceShared)
    (payload : CircuitManagementPayload) : Except String Bool :=
  s.signature_verifier payload.header_bytes payload.signature
    payload.header.requester

/-- `AdminServiceShared::validate_circuit_management_payload`. -/
def AdminServiceShared.validate_circuit_management_payload
    (s : AdminServiceShared) (payload : CircuitManagementPayload)
    (header : PayloadHeader) : Except AdminSharedError Unit :=
  if payload.signature.isEmpty then
    .error (.validationFailed "CircuitManagementPayload signature must be set")
  else if payload.header_bytes.isEmpty then
    .error (.validationFailed "CircuitManagementPayload header must be set")
  else if header.requester.isEmpty then
    .error (.validationFailed "CircuitManagementPayload must have a requester")
  else
    match s.validate_key header.requester with
    | .error e => .error e
    | .ok () =>
      if header.requester_node_id.isEmpty then
        .error (.validationFailed
          "CircuitManagementPayload must have a requester node id")
      else
        .ok ()

/-- `CircuitProposalStatus`. -/
inductive CircuitProposalStatus
  | accepted
  | rejected
  | pending
deriving DecidableEq, Repr

/-- `AdminServiceShared::check_approved`: any reject vote rejects; otherwise
the proposal is accepted exactly when the received voter set equals the
member set minus the requester (hash-set equality is modelled as mutual
containment of the id lists). -/
def AdminServiceShared.check_approved (_s : AdminServiceShared)
    (proposal : CircuitProposal) : CircuitProposalStatus :=
  if proposal.votes.any (fun v => v.vote == Vote.reject) then
    .rejected
  else
    let received_votes := proposal.votes.map (fun v => v.voter_node_id)
    let required_votes :=
      (proposal.circuit.members.map (fun m => m.node_id)).filter
        (fun n => n != proposal.requester_node_id)
    if required_votes.all (fun n => received_votes.contains n)
        && received_votes.all (fun n => required_votes.contains n) then
      .accepted
    else
      .pending

/-- `AdminServiceShared::validate_circuit_vote`. -/
def AdminServiceShared.validate_circuit_vote (s : AdminServiceShared)
    (proposal_vote : CircuitProposalVote) (signer_public_key : Bytes)
    (circuit_proposal : CircuitProposal) (node_id : String) :
    Except AdminSharedError Unit :=
  match s.validate_key signer_public_key with
  | .error e => .error e
  | .ok () =>
  if !(s.key_verifier node_id signer_public_key) then
    .error (.validationFailed ("key is not registered for voting node "
      ++ node_id))
  else if circuit_proposal.requester_node_id == node_id then
    .error (.validationFailed "Received vote from requester node")
  else if (circuit_proposal.votes.map (fun v => v.voter_node_id)).any
      (fun n => n == node_id) then
    .error (.validationFailed ("Received duplicate vote from " ++ node_id
      ++ " for " ++ proposal_vote.circuit_id))
  else if !(s.key_permission_manager signer_public_key VOTER_ROLE) then
    .error (.validationFailed ("key is not permitted to vote for node "
      ++ node_id))
  else if circuit_proposal.circuit_hash != proposal_vote.circuit_hash then
    .error (.validationFailed
      ("Hash of circuit does not match circuit proposal: "
        ++ proposal_vote.circuit_id))
  else
    .ok ()

/-- `AdminServiceShared::validate_circuit` (the circuit grammar).  The
member and roster loops of the source are embedded as recursive helpers
below (`validate_members_loop`, `validate_roster_loop`). -/
def validate_members_loop (nodes : List SplinterNode)
    (members all_endpoints : List String) :
    Except AdminSharedError (List String × List String) :=
  match nodes with
  | [] => .ok (members, all_endpoints)
  | member :: rest =>
    let node_id := member.node_id
    if node_id.isEmpty then
      .error (.validationFailed "Member node id cannot be empty")
    else if members.contains node_id then
      .error (.validationFailed "Every member must be unique in the circuit.")
    else
      let endpoints := member.endpoints
      if endpoints.isEmpty then
        .error (.validationFailed "Member endpoints cannot be empty")
      else if endpoints.any (fun e => e.isEmpty) then
        .error (.validationFailed "Member cannot have an empty endpoint")
      else if endpoints.any (fun e => all_endpoints.contains e) then
        .error (.validationFailed
          "Every member endpoint must be unique in the circuit.")
      else
        validate_members_loop rest (members ++ [node_id])
          (all_endpoints ++ endpoints)

/-- Roster loop of `validate_circuit` (service-argument validation is
feature-gated off in this embedding). -/
def validate_roster_loop (roster : List SplinterService)
    (members services : List String) :
    Except AdminSharedError (List String) :=
  match roster with
  | [] => .ok services
  | service :: rest =>
    if service.allowed_nodes.isEmpty then
      .error (.validationFailed "Service cannot have an empty allowed nodes list")
    else if service.allowed_nodes.length > 1 then
      .error (.validationFailed "Only one allowed node for a service is supported")
    else if service.allowed_nodes.any (fun n => !(members.contains n)) then
      .error (.validationFailed
        "Service cannot have an allowed node that is not in members")
    else
      let service_id := service.service_id
      if service_id.isEmpty then
        .error (.validationFailed "Service id cannot be empty")
      else if !(is_valid_service_id service_id) then
        .error (.validationFailed
          "not a valid service ID: must be a 4 character base62 string")
      else if services.contains service_id then
        .error (.validationFailed "Every service must be unique in the circuit.")
      else
        validate_roster_loop rest members (services ++ [service_id])

/-- `AdminServiceShared::validate_circuit`. -/
def AdminServiceShared.validate_circuit (s : AdminServiceShared)
    (circuit : Circuit) : Except AdminSharedError Unit :=
  if circuit.authorization_type == AuthorizationType.unset then
    .error (.validationFailed "authorization_type cannot be unset")
  else if circuit.persistence == PersistenceType.unset then
    .error (.validationFailed "persistence_type cannot be unset")
  else if circuit.durability == DurabilityType.unset then
    .error (.validationFailed "durability_type cannot be unset")
  else if circuit.routes == RouteType.unset then
    .error (.validationFailed "route_type cannot be unset")
  else if circuit.circuit_id.isEmpty then
    .error (.validationFailed "circuit_id must be set")
  else if !(is_valid_circuit_id circuit.circuit_id) then
    .error (.validationFailed "not a valid circuit ID")
  else if circuit.circuit_management_type.isEmpty then
    .error (.validationFailed "circuit_management_type must be set")
  else
    match validate_members_loop circuit.members [] [] with
    | .error e => .error e
    | .ok (members, _endpoints) =>
      if members.isEmpty then
        .error (.validationFailed "The circuit must have members")
      else if !(members.contains s.node_id) then
        .error (.validationFailed "Circuit does not contain this node")
      else if circuit.roster.isEmpty then
        .error (.validationFailed "The circuit must have services")
      else
        match validate_roster_loop circuit.roster members [] with
        | .error e => .error e
        | .ok _services =>
          if circuit.circuit_management_type.isEmpty then
            .error (.validationFailed "The circuit must have a mangement type")
          else
            .ok ()

/-- `AdminServiceShared::validate_create_circuit`. -/
def AdminServiceShared.validate_create_circuit (s : AdminServiceShared)
    (circuit : Circuit) (signer_public_key : Bytes)
    (requester_node_id : String) (protocol : Nat) :
    Except AdminSharedError Unit :=
  let version_check : Except AdminSharedError Unit :=
    if protocol == ADMIN_SERVICE_PROTOCOL_VERSION then
      if circuit.circuit_version > CIRCUIT_PROTOCOL_VERSION then
        .error (.validationFailed
          "Proposed circuit schema version is unsupported")
      else .ok ()
    else if protocol == 1 then
      if !circuit.display_name.isEmpty then
        .error (.validationFailed
          "Proposed circuit cannot have a display name on protocol 1")
      else if circuit.circuit_status != CircuitStatusProto.unset then
        .error (.validationFailed
          "Proposed circuit cannot have a circuit status on protocol 1")
      else if circuit.circuit_version != 0 then
        .error (.validationFailed
          "Proposed circuit schema version is not supported by protocol 1")
      else .ok ()
    else
      .error (.serviceProtocolError "Agreed upon unsupported protocol version")
  match version_check with
  | .error e => .error e
  | .ok () =>
  if requester_node_id.isEmpty then
    .error (.validationFailed "requester_node_id is empty")
  else
    match s.validate_key signer_public_key with
    | .error e => .error e
    | .ok () =>
    if !(s.key_verifier requester_node_id signer_public_key) then
      .error (.validationFailed "key is not registered for the requester node")
    else if !(s.key_permission_manager signer_public_key PROPOSER_ROLE) then
      .error (.validationFailed "key is not permitted to vote for node")
    else if (s.admin_store.get_proposal circuit.circuit_id).isSome then
      .error (.validationFailed ("Ignoring duplicate proposal for circuit "
        ++ circuit.circuit_id))
    else if (s.admin_store.get_circuit circuit.circuit_id).isSome then
      .error (.validationFailed ("Circuit with circuit id "
        ++ circuit.circuit_id ++ " already exists"))
    else
      s.validate_circuit circuit

/-- `AdminServiceShared::validate_disband_circuit`. -/
def AdminServiceShared.validate_disband_circuit (s : AdminServiceShared)
    (circuit : Circuit) (signer_public_key : Bytes)
    (requester_node_id : String) (protocol : Nat) :
    Except AdminSharedError Unit :=
  if protocol != ADMIN_SERVICE_PROTOCOL_VERSION then
    .error (.validationFailed
      "Circuit-Disband is not available for this protocol version")
  else if requester_node_id.isEmpty then
    .error (.validationFailed "requester_node_id is empty")
  else
    match s.validate_key signer_public_key with
    | .error e => .error e
    | .ok () =>
    if !(s.key_verifier requester_node_id signer_public_key) then
      .error (.validationFailed "key is not registered for the requester node")
    else if !(s.key_permission_manager signer_public_key PROPOSER_ROLE) then
      .error (.validationFailed "key is not permitted to disband for node")
    else if (s.admin_store.get_proposal circuit.circuit_id).isSome then
      .error (.validationFailed ("Ignoring duplicate proposal for circuit "
        ++ circuit.circuit_id))
    else
      match s.admin_store.get_circuit circuit.circuit_id with
      | none =>
        .error (.validationFailed
          ("Received disband request for a circuit that does not exist: "
            ++ circuit.circuit_id))
      | some stored_circuit =>
        if stored_circuit.circuit_status != StoreCircuitStatus.active then
          .error (.validationFailed ("Attempting to disband an inactive circuit "
            ++ circuit.circuit_id))
        else if stored_circuit.circuit_version < CIRCUIT_PROTOCOL_VERSION then
          .error (.validationFailed
            "Attempting to disband a circuit with an unsupported schema version")
        else
          .ok ()

/-- `AdminServiceShared::validate_purge_request`. -/
def AdminServiceShared.validate_purge_request (s : AdminServiceShared)
    (circuit_id : String) (signer_public_key : Bytes)
    (requester_node_id : String) (protocol : Nat) :
    Except AdminSharedError Unit :=
  if protocol != ADMIN_SERVICE_PROTOCOL_VERSION then
    .error (.validationFailed
      "Circuit-Purge is not available for this protocol version")
  else if requester_node_id.isEmpty then
    .error (.validationFailed "requester_node_id is empty")
  else if requester_node_id != s.node_id then
    .error (.validationFailed ("Unable to purge circuit from node "
      ++ s.node_id ++ ": request came from node " ++ requester_node_id))
  else
    match s.validate_key signer_public_key with
    | .error e => .error e
    | .ok () =>
    if !(s.key_verifier requester_node_id signer_public_key) then
      .error (.validationFailed "key is not registered for the requester node")
    else if !(s.key_permission_manager signer_public_key PROPOSER_ROLE) then
      .error (.validationFailed "key is not permitted to propose change for node")
    else
      match s.admin_store.get_circuit circuit_id with
      | none =>
        .error (.validationFailed
          ("Received purged request for a circuit that does not exist: "
            ++ circuit_id))
      | some stored_circuit =>
        if stored_circuit.circuit_status == StoreCircuitStatus.active then
          .error (.validationFailed
            ("Attempting to purge a circuit that is still active: "
              ++ circuit_id))
        else if stored_circuit.circuit_version < CIRCUIT_PROTOCOL_VERSION then
          .error (.validationFailed
            "Attempting to purge a circuit with an unsupported schema version")
        else
          .ok ()

/-- `AdminServiceShared::validate_abandon_circuit`. -/
def AdminServiceShared.validate_abandon_circuit (s : AdminServiceShared)
    (circuit_id : String) (signer_public_key : Bytes)
    (requester_node_id : String) (protocol : Nat) :
    Except AdminSharedError Unit :=
  if protocol != ADMIN_SERVICE_PROTOCOL_VERSION then
    .error (.validationFailed
      "Circuit-Abandon is not available for this protocol version")
  else if requester_node_id.isEmpty then
    .error (.validationFailed "requester_node_id is empty")
  else if requester_node_id != s.node_id then
    .error (.validationFailed ("Unable to abandon circuit from node "
      ++ s.node_id ++ ": request came from node " ++ requester_node_id))
  else
    match s.validate_key signer_public_key with
    | .error e => .error e
    | .ok () =>
    if !(s.key_verifier requester_node_id signer_public_key) then
      .error (.validationFailed "key is not registered for the requester node")
    else if !(s.key_permission_manager signer_public_key PROPOSER_ROLE) then
      .error (.validationFailed "key is not permitted to propose change for node")
    else
      match s.admin_store.get_circuit circuit_id with
      | none =>
        .error (.validationFailed
          ("Received abandon request for a circuit that does not exist: "
            ++ circuit_id))
      | some stored_circuit =>
        if stored_circuit.circuit_status != StoreCircuitStatus.active then
          .error (.validationFailed
            ("Attempting to abandon a circuit that is not active: "
              ++ circuit_id))
        else if stored_circuit.circuit_version < CIRCUIT_PROTOCOL_VERSION then
          .error (.validationFailed
            "Attempting to abandon a circuit with an unsupported version")
        else
          .ok ()

/-! ### Association-list helpers (embedding of the `HashMap` fields) -/

/-- Lookup in an association list (HashMap `get`). -/
def alist_get {α : Type} (l : List (String × α)) (k : String) : Option α :=
  (l.find? (fun p => p.1 == k)).map (fun p => p.2)

/-- Insert-or-replace in an association list (HashMap `insert`). -/
def alist_insert {α : Type} (l : List (String × α)) (k : String) (v : α) :
    List (String × α) :=
  if (l.find? (fun p => p.1 == k)).isSome then
    l.map (fun p => if p.1 == k then (k, v) else p)
  else
    l ++ [(k, v)]

/-- Update the entry at a key, if present (HashMap `get_mut`). -/
def alist_update {α : Type} (l : List (String × α)) (k : String) (f : α → α) :
    List (String × α) :=
  l.map (fun p => if p.1 == k then (p.1, f p.2) else p)

/-- Remove the entry at a key (HashMap `remove`). -/
def alist_remove {α : Type} (l : List (String × α)) (k : String) :
    List (String × α) :=
  l.filter (fun p => p.1 != k)

/-- Set-like insertion (HashSet `insert`). -/
def hs_insert (l : List String) (x : String) : List String :=
  if l.contains x then l else l ++ [x]

/-! ### Events and subscribers -/

/-- The event store `add_event` contract: assign the next event id and
append, or fail.  The management type is the index recorded with the
event. -/
def EventStoreState.add_event (st : EventStoreState)
    (management_type : String) (event : AdminServiceEvent) :
    Option (StoredEvent × EventStoreState) :=
  if st.fail then none
  else
    let admin_event : StoredEvent :=
      { event_id := st.next_id, management_type := management_type
        event := event }
    some (admin_event,
      { st with events := st.events ++ [admin_event]
                next_id := st.next_id + 1 })

/-- The `retain` closure of `SubscriberMap::broadcast_by_type`: keep a
subscriber unless it asks to unsubscribe; transient failures are logged and
the subscriber kept. -/
def handle_retain (admin_service_event : StoredEvent) :
    List Subscriber → List Subscriber
  | [] => []
  | subscriber :: rest =>
    match subscriber.handle_event admin_service_event with
    | .ok () => subscriber :: handle_retain admin_service_event rest
    | .error .unsubscribe => handle_retain admin_service_event rest
    | .error (.unableToHandleEvent _) =>
      subscriber :: handle_retain admin_service_event rest

/-- `SubscriberMap::broadcast_by_type`. -/
def broadcast_by_type (subs : List (String × List Subscriber))
    (event_type : String) (admin_service_event : StoredEvent) :
    List (String × List Subscriber) :=
  alist_update subs event_type (handle_retain admin_service_event)

/-- `AdminServiceShared::send_event` (the `admin-service-event-store`
variant): store the event; if storing fails, log and return without
broadcasting; otherwise broadcast to subscribers of the management type. -/
def AdminServiceShared.send_event (s : AdminServiceShared)
    (circuit_management_type : String) (event : AdminServiceEvent) :
    AdminServiceShared :=
  match s.event_store.add_event circuit_management_type event with
  | none => s
  | some (admin_event, store1) =>
    { s with
        event_store := store1
        event_subscribers :=
          broadcast_by_type s.event_subscribers circuit_management_type
            admin_event }

/-! ### Peer references -/

/-- `AdminServiceShared::add_peer_ref`: push one reference for the peer. -/
def AdminServiceShared.add_peer_ref (s : AdminServiceShared)
    (peer_id : String) : AdminServiceShared :=
  { s with peer_refs := fun n =>
      if n == peer_id then s.peer_refs n + 1 else s.peer_refs n }

/-- `AdminServiceShared::remove_peer_ref`: pop one reference for the peer
(no-op when none is held). -/
def AdminServiceShared.remove_peer_ref (s : AdminServiceShared)
    (peer_id : String) : AdminServiceShared :=
  { s with peer_refs := fun n =>
      if n == peer_id then s.peer_refs n - 1 else s.peer_refs n }

/-! ### Protocol requests and pending-payload intake -/

/-- `AdminServiceShared::send_protocol_request` (marshalling and transport
are modelled as always succeeding; the request is logged in
`sent_messages`). -/
def AdminServiceShared.send_protocol_request (s : AdminServiceShared)
    (node_id : String) : AdminServiceShared :=
  if (s.service_protocols (admin_service_id node_id)).isNone then
    if s.network_sender then
      { s with sent_messages := s.sent_messages
          ++ [(admin_service_id node_id,
               AdminMessage.serviceProtocolVersionRequest
                 ADMIN_SERVICE_PROTOCOL_MIN ADMIN_SERVICE_PROTOCOL_VERSION)] }
    else s
  else s

/-- The member loop shared verbatim by
`check_connected_peers_payload_vote` and
`check_connected_peers_payload_disband`: request a protocol from every
non-self member without an agreement, collecting the missing admin service
ids and all member node ids. -/
def protocol_member_loop (s : AdminServiceShared)
    (nodes : List SplinterNode) (missing pending : List String) :
    AdminServiceShared × List String × List String :=
  match nodes with
  | [] => (s, missing, pending)
  | node :: rest =>
    if s.node_id != node.node_id
        && (s.service_protocols (admin_service_id node.node_id)).isNone then
      protocol_member_loop (s.send_protocol_request node.node_id) rest
        (missing ++ [admin_service_id node.node_id])
        (pending ++ [node.node_id])
    else
      protocol_member_loop s rest missing (pending ++ [node.node_id])

/-- `AdminServiceShared::check_connected_peers_payload_vote`. -/
def AdminServiceShared.check_connected_peers_payload_vote
    (s : AdminServiceShared) (members : List SplinterNode)
    (payload : CircuitManagementPayload) (message_sender : String) :
    AdminServiceShared :=
  let (s1, missing_protocol_ids, pending_members) :=
    protocol_member_loop s members [] []
  if missing_protocol_ids.isEmpty then
    { s1 with pending_circuit_payloads :=
        s1.pending_circuit_payloads ++ [payload] }
  else
    { s1 with pending_protocol_payloads := s1.pending_protocol_payloads ++
        [{ unpeered_ids := []
           missing_protocol_ids := missing_protocol_ids
           payload_type := .circuit payload
           members := pending_members
           message_sender := message_sender }] }

/-- `AdminServiceShared::check_connected_peers_payload_disband` (identical
body to the vote variant in the source). -/
def AdminServiceShared.check_connected_peers_payload_disband
    (s : AdminServiceShared) (members : List SplinterNode)
    (payload : CircuitManagementPayload) (message_sender : String) :
    AdminServiceShared :=
  let (s1, missing_protocol_ids, pending_members) :=
    protocol_member_loop s members [] []
  if missing_protocol_ids.isEmpty then
    { s1 with pending_circuit_payloads :=
        s1.pending_circuit_payloads ++ [payload] }
  else
    { s1 with pending_protocol_payloads := s1.pending_protocol_payloads ++
        [{ unpeered_ids := []
           missing_protocol_ids := missing_protocol_ids
           payload_type := .circuit payload
           members := pending_members
           message_sender := message_sender }] }

/-- The member loop of `check_connected_peers_payload_create`: add one peer
reference per non-self member (rolling all of them back if the peer
connector fails), collecting pending peers and missing protocol ids. -/
def create_peer_loop (s : AdminServiceShared) (nodes : List SplinterNode)
    (missing pending_peers pending_members added : List String) :
    Except ServiceError (List String × List String × List String)
      × AdminServiceShared :=
  match nodes with
  | [] => (.ok (missing, pending_peers, pending_members), s)
  | node :: rest =>
    if s.node_id != node.node_id then
      if s.peer_connector node.node_id then
        let s1 := s.add_peer_ref node.node_id
        if (s1.service_protocols (admin_service_id node.node_id)).isNone then
          create_peer_loop s1 rest
            (missing ++ [admin_service_id node.node_id])
            (pending_peers ++ [node.node_id])
            (pending_members ++ [node.node_id])
            (added ++ [node.node_id])
        else
          create_peer_loop s1 rest missing pending_peers
            (pending_members ++ [node.node_id]) (added ++ [node.node_id])
      else
        (.error (.unableToHandleMessageExternal "unable to add peer ref"),
         added.foldl (fun st n => st.remove_peer_ref n) s)
    else
      create_peer_loop s rest missing pending_peers
        (pending_members ++ [node.node_id]) added

/-- `AdminServiceShared::check_connected_peers_payload_create`. -/
def AdminServiceShared.check_connected_peers_payload_create
    (s : AdminServiceShared) (members : List SplinterNode)
    (payload : CircuitManagementPayload) (message_sender : String) :
    Except ServiceError Unit × AdminServiceShared :=
  match create_peer_loop s members [] [] [] [] with
  | (.error e, s1) => (.error e, s1)
  | (.ok (missing_protocol_ids, pending_peers, pending_members), s1) =>
    if missing_protocol_ids.isEmpty then
      (.ok (), { s1 with pending_circuit_payloads :=
          s1.pending_circuit_payloads ++ [payload] })
    else
      (.ok (), { s1 with unpeered_payloads := s1.unpeered_payloads ++
          [{ unpeered_ids := pending_peers
             missing_protocol_ids := missing_protocol_ids
             payload_type := .circuit payload
             members := pending_members
             message_sender := message_sender }] })

/-! ### Disband and abandon record construction -/

/-- `AdminServiceShared::make_disband_request_circuit_proposal`: rebuild the
proposed circuit of a stored circuit with status `Disbanded` and wrap it in
a vote-less `DISBAND` proposal. -/
def AdminServiceShared.make_disband_request_circuit_proposal
    (s : AdminServiceShared) (circuit_id : String) (requester : Bytes)
    (requester_node_id : String) : Except AdminSharedError CircuitProposal :=
  match s.admin_store.get_circuit circuit_id with
  | none => .error (.splinterStateError ("Unable to get circuit: " ++ circuit_id))
  | some store_circuit =>
    let circuit_members := s.admin_store.nodes.filter
      (fun circuit_node => store_circuit.members.contains circuit_node.node_id)
    let proposed_circuit : Circuit :=
      { circuit_id := circuit_id
        roster := store_circuit.roster.map (fun service =>
          { service_id := service.service_id
            service_type := service.service_type
            allowed_nodes := [service.node_id]
            arguments := service.arguments })
        members := circuit_members
        authorization_type := store_circuit.authorization_type
        persistence := store_circuit.persistence
        durability := store_circuit.durability
        routes := store_circuit.routes
        circuit_management_type := store_circuit.circuit_management_type
        display_name := store_circuit.display_name.getD ""
        circuit_version := store_circuit.circuit_version
        circuit_status := .disbanded }
    .ok { proposal_type := .disband
          circuit_id := circuit_id
          circuit_hash := s.hash_circuit proposed_circuit
          circuit := proposed_circuit
          requester := requester
          requester_node_id := requester_node_id
          votes := [] }

/-- `AdminServiceShared::make_abandoned_circuit`: the protobuf circuit sent
to peers (arguments are not copied in the source) and the `Abandoned` store
record. -/
def AdminServiceShared.make_abandoned_circuit (s : AdminServiceShared)
    (store_circuit : StoreCircuit) : Circuit × StoreCircuit :=
  let circuit_members := s.admin_store.nodes.filter
    (fun circuit_node => store_circuit.members.contains circuit_node.node_id)
  let services : List SplinterService := store_circuit.roster.map
    (fun store_service =>
      { service_id := store_service.service_id
        service_type := store_service.service_type
        allowed_nodes := [store_service.node_id]
        arguments := [] })
  ({ circuit_id := store_circuit.circuit_id
     roster := services
     members := circuit_members
     authorization_type := store_circuit.authorization_type
     persistence := store_circuit.persistence
     durability := store_circuit.durability
     routes := store_circuit.routes
     circuit_management_type := store_circuit.circuit_management_type
     display_name := store_circuit.display_name.getD ""
     circuit_version := store_circuit.circuit_version
     circuit_status := store_circuit.circuit_status.toProto },
   { store_circuit with circuit_status := .abandoned })

/-! ### Orchestrator interaction -/

/-- Loop of `initialize_services`: start each locally-owned, supported
service; the first failure aborts. -/
def initialize_services_loop (s : AdminServiceShared) (circuit_id : String) :
    List SplinterService → Except AdminSharedError Unit
  | [] => .ok ()
  | service :: rest =>
    match s.orchestrator_initialize_service
        { circuit := circuit_id, service_id := service.service_id
          service_type := service.service_type } service.arguments with
    | .error _ =>
      .error (.serviceInitializationFailed ("Unable to start service "
        ++ service.service_id ++ " on circuit " ++ circuit_id))
    | .ok () => initialize_services_loop s circuit_id rest

/-- `AdminServiceShared::initialize_services`. -/
def AdminServiceShared.initialize_services (s : AdminServiceShared)
    (circuit : Circuit) : Except AdminSharedError Unit :=
  initialize_services_loop s circuit.circuit_id
    (circuit.roster.filter (fun service =>
      service.allowed_nodes.contains s.node_id
        && s.orchestrator_supported_types.contains service.service_type))

/-- Loop of `stop_services`: stop each locally-owned, supported service; the
first failure aborts. -/
def stop_services_loop (s : AdminServiceShared) (circuit_id : String) :
    List SplinterService → Except AdminSharedError Unit
  | [] => .ok ()
  | service :: rest =>
    match s.orchestrator_stop_service
        { circuit := circuit_id, service_id := service.service_id
          service_type := service.service_type } with
    | .error _ =>
      .error (.internalError ("Unable to shutdown service "
        ++ service.service_id ++ " on circuit " ++ circuit_id))
    | .ok () => stop_services_loop s circuit_id rest

/-- `AdminServiceShared::stop_services`. -/
def AdminServiceShared.stop_services (s : AdminServiceShared)
    (circuit : Circuit) : Except AdminSharedError Unit :=
  stop_services_loop s circuit.circuit_id
    (circuit.roster.filter (fun service =>
      service.allowed_nodes.contains s.node_id
        && s.orchestrator_supported_types.contains service.service_type))

/-- `AdminServiceShared::purge_services`: purge each locally-owned,
supported service; failed purges are collected and logged only, the
function returns `Ok` regardless. -/
def AdminServiceShared.purge_services (s : AdminServiceShared)
    (circuit_id : String) (services : List StoreService) :
    Except AdminSharedError Unit :=
  let purge_results :=
    ((services.filterMap (fun service =>
        if service.node_id == s.node_id
            && s.orchestrator_supported_types.contains service.service_type
        then
          some { circuit := circuit_id, service_id := service.service_id
                 service_type := service.service_type : ServiceDefinition }
        else none)).map
      (fun service => (service, s.orchestrator_purge_service service)))
  let _failed := purge_results.filter (fun r =>
    match r.2 with | .error _ => true | .ok _ => false)
  .ok ()

/-! ### Circuit removal: purge and abandon -/

/-- `AdminServiceShared::remove_circuit` (get then remove, returning the
previously stored record). -/
def AdminServiceShared.remove_circuit (s : AdminServiceShared)
    (circuit_id : String) : Option StoreCircuit × AdminServiceShared :=
  (s.admin_store.get_circuit circuit_id,
   { s with admin_store := s.admin_store.remove_circuit circuit_id })

/-- `AdminServiceShared::purge_circuit`. -/
def AdminServiceShared.purge_circuit (s : AdminServiceShared)
    (circuit_id : String) : Except ServiceError Unit × AdminServiceShared :=
  match s.admin_store.get_circuit circuit_id with
  | none =>
    (.error (.unableToHandleMessage (.splinterStateError
       ("Received purged request for a circuit that does not exist: "
         ++ circuit_id))), s)
  | some stored_circuit =>
    match s.purge_services circuit_id stored_circuit.roster with
    | .error e => (.error (.unableToHandleMessage e), s)
    | .ok () =>
      let (removed, s1) := s.remove_circuit circuit_id
      match removed with
      | some _ => (.ok (), s1)
      | none =>
        (.error (.unableToHandleMessage (.splinterStateError
           ("unable to purge circuit " ++ circuit_id))), s1)

/-- `AdminServiceShared::abandon_circuit`. -/
def AdminServiceShared.abandon_circuit (s : AdminServiceShared)
    (circuit_id : String) : Except ServiceError Unit × AdminServiceShared :=
  match s.admin_store.get_circuit circuit_id with
  | none =>
    (.error (.unableToHandleMessage (.splinterStateError
       ("Received abandon request for a circuit that does not exist: "
         ++ circuit_id))), s)
  | some stored_circuit =>
    let s1 :=
      if s.network_sender then
        { s with sent_messages := s.sent_messages ++
            ((stored_circuit.members.filter (fun m => m != s.node_id)).map
              (fun m => (admin_service_id m,
                AdminMessage.abandonedCircuit circuit_id s.node_id))) }
      else s
    let (abandoned_proto_circuit, abandoned_store_circuit) :=
      s1.make_abandoned_circuit stored_circuit
    let s2 := { s1 with admin_store :=
        s1.admin_store.update_circuit abandoned_store_circuit }
    match s2.stop_services abandoned_proto_circuit with
    | .error e => (.error (.unableToHandleMessage e), s2)
    | .ok () =>
      let s3 := { s2 with routing_circuits :=
          s2.routing_circuits.filter (fun c => c != stored_circuit.circuit_id) }
      (.ok (), stored_circuit.members.foldl
        (fun st m => st.remove_peer_ref m) s3)

/-! ### Readiness handshakes -/

/-- `AdminServiceShared::initialize_services_if_members_ready`. -/
def AdminServiceShared.initialize_services_if_members_ready
    (s : AdminServiceShared) (circuit_id : String) :
    Except AdminSharedError Unit × AdminServiceShared :=
  let ready : Bool :=
    match alist_get s.uninitialized_circuits circuit_id with
    | some uninitialized_circuit =>
      match uninitialized_circuit.circuit with
      | some circuit_proposal =>
        (circuit_proposal.circuit.members.map (fun node => node.node_id)).all
          (fun m => uninitialized_circuit.ready_members.contains m)
      | none => false
    | none => false
  if ready then
    match alist_get s.uninitialized_circuits circuit_id with
    | some uninitialized_circuit =>
      match uninitialized_circuit.circuit with
      | some circuit_proposal =>
        let s1 := { s with
          uninitialized_circuits :=
            alist_remove s.uninitialized_circuits circuit_id }
        match s1.initialize_services circuit_proposal.circuit with
        | .error e => (.error e, s1)
        | .ok () =>
          (.ok (), s1.send_event
            circuit_proposal.circuit.circuit_management_type
            (.circuitReady circuit_proposal))
      | none => (.ok (), s)
    | none => (.ok (), s)
  else (.ok (), s)

/-- `AdminServiceShared::add_uninitialized_circuit`: record the committed
proposal, mark self ready, and try to initialize. -/
def AdminServiceShared.add_uninitialized_circuit (s : AdminServiceShared)
    (circuit : CircuitProposal) :
    Except AdminSharedError Unit × AdminServiceShared :=
  let circuit_id := circuit.circuit_id
  let map1 :=
    match alist_get s.uninitialized_circuits circuit_id with
    | some _ => alist_update s.uninitialized_circuits circuit_id
        (fun u => { u with circuit := some circuit })
    | none => s.uninitialized_circuits
        ++ [(circuit_id, { circuit := some circuit, ready_members := [] })]
  let map2 := alist_update map1 circuit_id
    (fun u => { u with ready_members := hs_insert u.ready_members s.node_id })
  AdminServiceShared.initialize_services_if_members_ready
    { s with uninitialized_circuits := map2 } circuit_id

/-- `AdminServiceShared::add_ready_member`. -/
def AdminServiceShared.add_ready_member (s : AdminServiceShared)
    (circuit_id : String) (member_node_id : String) :
    Except AdminSharedError Unit × AdminServiceShared :=
  let map1 :=
    if (alist_get s.uninitialized_circuits circuit_id).isNone then
      s.uninitialized_circuits
        ++ [(circuit_id, { circuit := none, ready_members := [] })]
    else s.uninitialized_circuits
  let map2 := alist_update map1 circuit_id
    (fun u => { u with ready_members := hs_insert u.ready_members member_node_id })
  AdminServiceShared.initialize_services_if_members_ready
    { s with uninitialized_circuits := map2 } circuit_id

/-- `AdminServiceShared::cleanup_disbanded_circuit_if_members_ready`. -/
def AdminServiceShared.cleanup_disbanded_circuit_if_members_ready
    (s : AdminServiceShared) (circuit_id : String) :
    Except AdminSharedError Unit × AdminServiceShared :=
  let ready : Bool :=
    match alist_get s.pending_consensus_disbanded_circuits circuit_id with
    | some disbanded_circuit =>
      match disbanded_circuit.circuit with
      | some circuit_proposal =>
        (circuit_proposal.circuit.members.map (fun node => node.node_id)).all
          (fun m => disbanded_circuit.ready_members.contains m)
      | none => false
    | none => false
  if ready then
    match alist_get s.pending_consensus_disbanded_circuits circuit_id with
    | some disbanded_circuit =>
      match disbanded_circuit.circuit with
      | some circuit_proposal =>
        let s1 := { s with
          pending_consensus_disbanded_circuits :=
            alist_remove s.pending_consensus_disbanded_circuits circuit_id }
        let s2 := s1.send_event
          circuit_proposal.circuit.circuit_management_type
          (.circuitDisbanded circuit_proposal)
        match s2.stop_services circuit_proposal.circuit with
        | .error e => (.error e, s2)
        | .ok () =>
          let s3 := { s2 with
            routing_circuits := s2.routing_circuits.filter
              (fun c => c != circuit_proposal.circuit_id) }
          (.ok (), circuit_proposal.circuit.members.foldl
            (fun (st : AdminServiceShared) (node : SplinterNode) =>
              st.remove_peer_ref node.node_id) s3)
      | none => (.ok (), s)
    | none => (.ok (), s)
  else (.ok (), s)

/-- `AdminServiceShared::add_pending_disbanded_circuit`. -/
def AdminServiceShared.add_pending_disbanded_circuit (s : AdminServiceShared)
    (circuit : CircuitProposal) :
    Except AdminSharedError Unit × AdminServiceShared :=
  let circuit_id := circuit.circuit_id
  let map1 :=
    match alist_get s.pending_consensus_disbanded_circuits circuit_id with
    | some _ => alist_update s.pending_consensus_disbanded_circuits circuit_id
        (fun u => { u with circuit := some circuit })
    | none => s.pending_consensus_disbanded_circuits
        ++ [(circuit_id, { circuit := some circuit, ready_members := [] })]
  let map2 := alist_update map1 circuit_id
    (fun u => { u with ready_members := hs_insert u.ready_members s.node_id })
  AdminServiceShared.cleanup_disbanded_circuit_if_members_ready
    { s with pending_consensus_disbanded_circuits := map2 } circuit_id

/-- `AdminServiceShared::add_member_ready_to_disband`. -/
def AdminServiceShared.add_member_ready_to_disband (s : AdminServiceShared)
    (circuit_id : String) (member_node_id : String) :
    Except AdminSharedError Unit × AdminServiceShared :=
  let map1 :=
    if (alist_get s.pending_consensus_disbanded_circuits circuit_id).isNone then
      s.pending_consensus_disbanded_circuits
        ++ [(circuit_id, { circuit := none, ready_members := [] })]
    else s.pending_consensus_disbanded_circuits
  let map2 := alist_update map1 circuit_id
    (fun u => { u with ready_members := hs_insert u.ready_members member_node_id })
  AdminServiceShared.cleanup_disbanded_circuit_if_members_ready
    { s with pending_consensus_disbanded_circuits := map2 } circuit_id

/-! ### Proposal intake -/

/-- `AdminServiceShared::propose_circuit`. -/
def AdminServiceShared.propose_circuit (s : AdminServiceShared)
    (payload : CircuitManagementPayload) (message_sender : String) :
    Except ServiceError Unit × AdminServiceShared :=
  s.check_connected_peers_payload_create payload.circuit_create_request.members
    payload message_sender

/-- `AdminServiceShared::propose_vote`. -/
def AdminServiceShared.propose_vote (s : AdminServiceShared)
    (payload : CircuitManagementPayload) (message_sender : String) :
    Except ServiceError Unit × AdminServiceShared :=
  match s.admin_store.get_proposal payload.circuit_proposal_vote.circuit_id with
  | none =>
    (.error (.unableToHandleMessage (.validationFailed
       ("Received vote for a proposal that does not exist: circuit id "
         ++ payload.circuit_proposal_vote.circuit_id))), s)
  | some proposal =>
    (.ok (), s.check_connected_peers_payload_vote proposal.circuit.members
      payload message_sender)

/-- `AdminServiceShared::propose_disband`. -/
def AdminServiceShared.propose_disband (s : AdminServiceShared)
    (payload : CircuitManagementPayload) (requester : Bytes)
    (requester_node_id : String) (message_sender : String) :
    Except ServiceError Unit × AdminServiceShared :=
  match s.make_disband_request_circuit_proposal payload.circuit_disband_request
      requester requester_node_id with
  | .error e => (.error (.unableToHandleMessage e), s)
  | .ok circuit_proposal =>
    (.ok (), s.check_connected_peers_payload_disband
      circuit_proposal.circuit.members payload message_sender)

/-! ### Payload submission -/

/-- `AdminServiceShared::submit`: parse and validate the payload header,
verify the signature (note: the verifier result `bool` is discarded at line
1288 of the source, only verifier errors propagate), then dispatch on the
action. -/
def AdminServiceShared.submit (s : AdminServiceShared)
    (payload : CircuitManagementPayload) :
    Except ServiceError Unit × AdminServiceShared :=
  let header := payload.header
  match s.validate_circuit_management_payload payload header with
  | .error e => (.error (.unableToHandleMessage e), s)
  | .ok () =>
  match s.verify_signature payload with
  | .error msg => (.error (.unableToHandleMessageExternal msg), s)
  | .ok _verified =>
  match header.action with
  | .circuitCreateRequest =>
    match s.validate_create_circuit payload.circuit_create_request
        header.requester header.requester_node_id
        ADMIN_SERVICE_PROTOCOL_VERSION with
    | .error e => (.error (.unableToHandleMessage e), s)
    | .ok () => s.propose_circuit payload "local"
  | .circuitProposalVote =>
    match s.admin_store.get_proposal payload.circuit_proposal_vote.circuit_id with
    | none =>
      (.error (.unableToHandleMessage (.validationFailed
         ("Received vote for a proposal that does not exist: circuit id "
           ++ payload.circuit_proposal_vote.circuit_id))), s)
    | some circuit_proposal =>
      match s.validate_circuit_vote payload.circuit_proposal_vote
          header.requester circuit_proposal header.requester_node_id with
      | .error e => (.error (.unableToHandleMessage e), s)
      | .ok () => s.propose_vote payload "local"
  | .circuitDisbandRequest =>
    match s.make_disband_request_circuit_proposal
        payload.circuit_disband_request header.requester
        header.requester_node_id with
    | .error e => (.error (.unableToHandleMessage e), s)
    | .ok circuit_proposal =>
      match s.validate_disband_circuit circuit_proposal.circuit
          header.requester header.requester_node_id
          ADMIN_SERVICE_PROTOCOL_VERSION with
      | .error e => (.error (.unableToHandleMessage e), s)
      | .ok () =>
        s.propose_disband payload header.requester header.requester_node_id
          "local"
  | .circuitPurgeRequest =>
    match s.validate_purge_request payload.circuit_purge_request
        header.requester header.requester_node_id
        ADMIN_SERVICE_PROTOCOL_VERSION with
    | .error e => (.error (.unableToHandleMessage e), s)
    | .ok () => s.purge_circuit payload.circuit_purge_request
  | .circuitAbandon =>
    match s.validate_abandon_circuit payload.circuit_abandon
        header.requester header.requester_node_id
        ADMIN_SERVICE_PROTOCOL_VERSION with
    | .error e => (.error (.unableToHandleMessage e), s)
    | .ok () => s.abandon_circuit payload.circuit_abandon
  | .unset =>
    (.error (.unableToHandleMessage (.validationFailed "No action specified")),
     s)

/-! ### Consensus ingress: propose_change, commit, rollback -/

/-- `AdminServiceShared::propose_change`: validate the payload and fill the
single pending-changes slot with the proposal the payload produces. -/
def AdminServiceShared.propose_change (s : AdminServiceShared)
    (circuit_payload : CircuitManagementPayload) :
    Except AdminSharedError (String × CircuitProposal) × AdminServiceShared :=
  let header := circuit_payload.header
  match s.validate_circuit_management_payload circuit_payload header with
  | .error e => (.error e, s)
  | .ok () =>
  match s.verify_signature circuit_payload with
  | .error _ => (.error (.validationFailed "Unable to verify signature"), s)
  | .ok _verified =>
  match header.action with
  | .circuitCreateRequest =>
    let proposed_circuit := circuit_payload.circuit_create_request
    let verifiers := proposed_circuit.members.map
      (fun member => admin_service_id member.node_id)
    let protocol := proposed_circuit.members.foldl
      (fun protocol member =>
        match s.service_protocols (admin_service_id member.node_id) with
        | some protocol_version =>
          if protocol_version < protocol then protocol_version else protocol
        | none => protocol)
      ADMIN_SERVICE_PROTOCOL_VERSION
    match s.validate_create_circuit proposed_circuit header.requester
        header.requester_node_id protocol with
    | .error e =>
      (.error e, proposed_circuit.members.foldl
        (fun (st : AdminServiceShared) (member : SplinterNode) =>
          st.remove_peer_ref member.node_id) s)
    | .ok () =>
      let circuit_proposal : CircuitProposal :=
        { proposal_type := .create
          circuit_id := proposed_circuit.circuit_id
          circuit_hash := s.hash_circuit proposed_circuit
          circuit := proposed_circuit
          requester := header.requester
          requester_node_id := header.requester_node_id
          votes := [] }
      (.ok (s.hash_proposal circuit_proposal, circuit_proposal),
       { s with
           pending_changes := some
             { circuit_proposal := circuit_proposal
               action := .circuitCreateRequest
               signer_public_key := header.requester }
           current_consensus_verifiers := verifiers })
  | .circuitProposalVote =>
    let proposal_vote := circuit_payload.circuit_proposal_vote
    match s.admin_store.get_proposal proposal_vote.circuit_id with
    | none =>
      (.error (.validationFailed
         ("Received vote for a proposal that does not exist: circuit id "
           ++ proposal_vote.circuit_id)), s)
    | some circuit_proposal =>
      let verifiers := circuit_proposal.circuit.members.map
        (fun member => admin_service_id member.node_id)
      match s.validate_circuit_vote proposal_vote header.requester
          circuit_proposal header.requester_node_id with
      | .error e =>
        (.error e,
         if circuit_proposal.proposal_type == ProposalType.create then
           circuit_proposal.circuit.members.foldl
             (fun (st : AdminServiceShared) (member : SplinterNode) =>
               st.remove_peer_ref member.node_id) s
         else s)
      | .ok () =>
        match proposal_vote.vote with
        | .unset => (.error (.validationFailed "Vote is unset"), s)
        | .accept =>
          let vote_record : VoteRecord :=
            { public_key := header.requester, vote := .accept
              voter_node_id := header.requester_node_id }
          let new_proposal := { circuit_proposal with
            votes := circuit_proposal.votes ++ [vote_record] }
          (.ok (s.hash_proposal new_proposal, new_proposal),
           { s with
               pending_changes := some
                 { circuit_proposal := new_proposal
                   action := .circuitProposalVote
                   signer_public_key := header.requester }
               current_consensus_verifiers := verifiers })
        | .reject =>
          let vote_record : VoteRecord :=
            { public_key := header.requester, vote := .reject
              voter_node_id := header.requester_node_id }
          let new_proposal := { circuit_proposal with
            votes := circuit_proposal.votes ++ [vote_record] }
          (.ok (s.hash_proposal new_proposal, new_proposal),
           { s with
               pending_changes := some
                 { circuit_proposal := new_proposal
                   action := .circuitProposalVote
                   signer_public_key := header.requester }
               current_consensus_verifiers := verifiers })
  | .circuitDisbandRequest =>
    let circuit_id := circuit_payload.circuit_disband_request
    match s.admin_store.get_circuit circuit_id with
    | none =>
      (.error (.validationFailed
         ("Received disband request for a circuit that does not exist: "
           ++ circuit_id)), s)
    | some _ =>
      match s.make_disband_request_circuit_proposal circuit_id
          header.requester header.requester_node_id with
      | .error e => (.error e, s)
      | .ok circuit_proposal =>
        let verifiers := circuit_proposal.circuit.members.map
          (fun member => admin_service_id member.node_id)
        let protocol := circuit_proposal.circuit.members.foldl
          (fun protocol member =>
            match s.service_protocols (admin_service_id member.node_id) with
            | some protocol_version =>
              if protocol_version < protocol then protocol_version
              else protocol
            | none => protocol)
          ADMIN_SERVICE_PROTOCOL_VERSION
        match s.validate_disband_circuit circuit_proposal.circuit
            header.requester header.requester_node_id protocol with
        | .error e => (.error e, s)
        | .ok () =>
          (.ok (s.hash_proposal circuit_proposal, circuit_proposal),
           { s with
               pending_changes := some
                 { circuit_proposal := circuit_proposal
                   action := .circuitDisbandRequest
                   signer_public_key := header.requester }
               current_consensus_verifiers := verifiers })
  | .unset => (.error (.validationFailed "Action must be set"), s)
  | _ => (.error (.validationFailed "Unable to handle unknown action"), s)

/-- The `circuit-disband` block of the Accepted arm of
`AdminServiceShared::commit` (source lines 426-490): when the committed
proposal carries a `DISBANDED` circuit status, update the circuit, drop the
proposal, emit `ProposalAccepted`, broadcast `DisbandedCircuit` to the
other members and register the pending disband record. -/
def AdminServiceShared.commit_disband_block (s : AdminServiceShared)
    (circuit_proposal : CircuitProposal) (signer_public_key : Bytes) :
    Except AdminSharedError Unit × AdminServiceShared :=
  let circuit_id := circuit_proposal.circuit_id
  let mgmt_type := circuit_proposal.circuit.circuit_management_type
  if circuit_proposal.circuit.circuit_status
      == CircuitStatusProto.disbanded then
    let store_circuit := circuit_proposal.circuit.toStoreCircuit
    if store_circuit.circuit_status != StoreCircuitStatus.disbanded then
      (.error (.splinterStateError ("Circuit should be disbanded: "
        ++ circuit_id)), s)
    else
      let s1 := { s with
        admin_store :=
          (s.admin_store.update_circuit store_circuit).remove_proposal
            store_circuit.circuit_id }
      let s2 := s1.send_event mgmt_type
        (.proposalAccepted circuit_proposal signer_public_key)
      let s3 :=
        if s2.network_sender then
          { s2 with sent_messages := s2.sent_messages ++
              ((store_circuit.members.filter
                  (fun m => m != s2.node_id)).map
                (fun m => (admin_service_id m,
                  AdminMessage.disbandedCircuit circuit_id s2.node_id))) }
        else s2
      s3.add_pending_disbanded_circuit circuit_proposal
  else (.ok (), s)

/-- The new-circuit block of the Accepted arm of
`AdminServiceShared::commit` (source lines 491-577): upgrade the proposal
to a circuit, register it with the routing table, emit `ProposalAccepted`,
broadcast `MemberReady` and record the uninitialized circuit. -/
def AdminServiceShared.commit_active_block (s1 : AdminServiceShared)
    (circuit_proposal : CircuitProposal) (signer_public_key : Bytes) :
    Except AdminSharedError Unit × AdminServiceShared :=
  let circuit_id := circuit_proposal.circuit_id
  let mgmt_type := circuit_proposal.circuit.circuit_management_type
  let status := circuit_proposal.circuit.circuit_status
  if status == CircuitStatusProto.active
      || status == CircuitStatusProto.unset then
    let s2 := { s1 with admin_store :=
        s1.admin_store.upgrade_proposal_to_circuit circuit_id }
    match s2.admin_store.get_circuit circuit_id with
    | none =>
      (.error (.splinterStateError
         ("Unable to get circuit that was just set: " ++ circuit_id)),
       s2)
    | some circuit =>
      let s3 := { s2 with routing_circuits :=
          s2.routing_circuits ++ [circuit.circuit_id] }
      let s4 := s3.send_event mgmt_type
        (.proposalAccepted circuit_proposal signer_public_key)
      let s5 :=
        if s4.network_sender then
          { s4 with sent_messages := s4.sent_messages ++
              ((circuit.members.filter (fun m => m != s4.node_id)).map
                (fun m => (admin_service_id m,
                  AdminMessage.memberReady circuit_id s4.node_id))) }
        else s4
      s5.add_uninitialized_circuit circuit_proposal
  else (.ok (), s1)

/-- `AdminServiceShared::commit`: consume the pending-changes slot and apply
the transition chosen by `check_approved`. -/
def AdminServiceShared.commit (s0 : AdminServiceShared) :
    Except AdminSharedError Unit × AdminServiceShared :=
  match s0.pending_changes with
  | none => (.error .noPendingChanges, s0)
  | some circuit_proposal_context =>
    let s := { s0 with pending_changes := none }
    let circuit_proposal := circuit_proposal_context.circuit_proposal
    let action := circuit_proposal_context.action
    let circuit_id := circuit_proposal.circuit_id
    let mgmt_type := circuit_proposal.circuit.circuit_management_type
    match s.check_approved circuit_proposal with
    | .accepted =>
      match s.commit_disband_block circuit_proposal
          circuit_proposal_context.signer_public_key with
      | (.error e, s1) => (.error e, s1)
      | (.ok (), s1) =>
        s1.commit_active_block circuit_proposal
          circuit_proposal_context.signer_public_key
    | .pending =>
      let s1 := { s with admin_store :=
          s.admin_store.add_proposal circuit_proposal }
      match action with
      | .circuitCreateRequest =>
        (.ok (), s1.send_event mgmt_type (.proposalSubmitted circuit_proposal))
      | .circuitProposalVote =>
        (.ok (), s1.send_event mgmt_type
          (.proposalVote circuit_proposal
            circuit_proposal_context.signer_public_key))
      | .circuitDisbandRequest =>
        (.ok (), s1.send_event mgmt_type (.proposalSubmitted circuit_proposal))
      | _ => (.error (.unknownAction "Received unknown action"), s1)
    | .rejected =>
      let removed := s.admin_store.get_proposal circuit_id
      let s1 := { s with admin_store :=
          s.admin_store.remove_proposal circuit_id }
      let s2 :=
        match removed with
        | some proposal => proposal.circuit.members.foldl
            (fun (st : AdminServiceShared) (member : SplinterNode) =>
              st.remove_peer_ref member.node_id) s1
        | none => s1
      (.ok (), s2.send_event mgmt_type
        (.proposalRejected circuit_proposal
          circuit_proposal_context.signer_public_key))

/-- `AdminServiceShared::rollback`: discard the pending-changes slot. -/
def AdminServiceShared.rollback (s : AdminServiceShared) :
    Except AdminSharedError Unit × AdminServiceShared :=
  (.ok (), { s with pending_changes := none })

/-! ### Peer and protocol queue transitions -/

/-- `AdminServiceShared::on_peer_connected`. -/
def AdminServiceShared.on_peer_connected (s : AdminServiceShared)
    (peer_id : String) : Except AdminSharedError Unit × AdminServiceShared :=
  let unpeered_payloads := s.unpeered_payloads.map (fun up =>
    { up with unpeered_ids := up.unpeered_ids.filter (fun u => u != peer_id) })
  let fully_peered := unpeered_payloads.filter
    (fun up => up.unpeered_ids.isEmpty)
  let still_unpeered := unpeered_payloads.filter
    (fun up => !up.unpeered_ids.isEmpty)
  let s1 := { s with
      unpeered_payloads := still_unpeered
      pending_protocol_payloads := s.pending_protocol_payloads ++ fully_peered }
  if peer_id == admin_service_id s1.node_id then (.ok (), s1)
  else if (s1.service_protocols (admin_service_id peer_id)).isSome then
    (.ok (), s1)
  else if s1.network_sender then
    (.ok (), { s1 with sent_messages := s1.sent_messages ++
        [(admin_service_id peer_id,
          AdminMessage.serviceProtocolVersionRequest
            ADMIN_SERVICE_PROTOCOL_MIN ADMIN_SERVICE_PROTOCOL_VERSION)] })
  else
    (.error (.serviceProtocolError
       ("AdminService is not started, cannot send request to " ++ peer_id)),
     s1)

/-- `AdminServiceShared::on_peer_disconnected`. -/
def AdminServiceShared.on_peer_disconnected (s : AdminServiceShared)
    (peer_id : String) : AdminServiceShared :=
  let s1 := { s with service_protocols := fun k =>
      if k == admin_service_id peer_id then none else s.service_protocols k }
  let pending_protocol_payloads := s1.pending_protocol_payloads.map (fun pp =>
    if pp.members.contains peer_id then
      { pp with missing_protocol_ids := pp.missing_protocol_ids ++ [peer_id] }
    else pp)
  let peering := pending_protocol_payloads.filter
    (fun pp => pp.missing_protocol_ids.contains peer_id)
  let protocol := pending_protocol_payloads.filter
    (fun pp => !(pp.missing_protocol_ids.contains peer_id))
  let unpeered_payloads := s1.unpeered_payloads.map (fun up =>
    if up.members.contains peer_id then
      { up with unpeered_ids := up.unpeered_ids ++ [peer_id] }
    else up)
  { s1 with
      pending_protocol_payloads := protocol
      unpeered_payloads := unpeered_payloads ++ peering }

/-- `AdminServiceShared::add_pending_consensus_proposal`. -/
def AdminServiceShared.add_pending_consensus_proposal (s : AdminServiceShared)
    (id : String) (pair : ConsensusProposal × CircuitManagementPayload) :
    AdminServiceShared :=
  { s with pending_consensus_proposals :=
      alist_insert s.pending_consensus_proposals id pair }

/-- The forwarding loop at the end of `on_protocol_agreement` for a non-zero
protocol: circuit payloads go to the ready queue, consensus payloads are
recorded and sent to the consensus adapter. -/
def forward_ready_payloads (s : AdminServiceShared) :
    List PendingPayload → Except AdminSharedError Unit × AdminServiceShared
  | [] => (.ok (), s)
  | pending_payload :: rest =>
    match pending_payload.payload_type with
    | .circuit payload =>
      forward_ready_payloads
        { s with pending_circuit_payloads :=
            s.pending_circuit_payloads ++ [payload] } rest
    | .consensus id proposal payload =>
      let s1 := s.add_pending_consensus_proposal id (proposal, payload)
      let s2 :=
        if s1.proposal_sender then
          { s1 with forwarded_proposals := s1.forwarded_proposals
              ++ [(proposal, pending_payload.message_sender)] }
        else s1
      forward_ready_payloads s2 rest

/-- `AdminServiceShared::on_protocol_agreement`. -/
def AdminServiceShared.on_protocol_agreement (s : AdminServiceShared)
    (service_id : String) (protocol : Nat) :
    Except AdminSharedError Unit × AdminServiceShared :=
  let pending_protocol_payloads := s.pending_protocol_payloads.map (fun pp =>
    if protocol == 0 then
      if pp.missing_protocol_ids.any (fun m => m == service_id) then
        { pp with missing_protocol_ids := [] }
      else pp
    else
      { pp with missing_protocol_ids :=
          pp.missing_protocol_ids.filter (fun m => m != service_id) })
  let ready := pending_protocol_payloads.filter
    (fun pp => pp.missing_protocol_ids.isEmpty)
  let waiting := pending_protocol_payloads.filter
    (fun pp => !pp.missing_protocol_ids.isEmpty)
  let s1 := { s with pending_protocol_payloads := waiting }
  if protocol == 0 then
    (.ok (), ready.foldl
      (fun (st : AdminServiceShared) pp =>
        pp.members.foldl (fun st2 peer => st2.remove_peer_ref peer) st)
      s1)
  else
    let s2 := { s1 with service_protocols := fun k =>
        if k == service_id then some protocol else s1.service_protocols k }
    forward_ready_payloads s2 ready

/-! ## Specification-side vocabulary -/

/-- The set of voter node ids recorded in a proposal. -/
def voter_id_set (p : CircuitProposal) : Finset String :=
  (p.votes.map (fun v => v.voter_node_id)).toFinset

/-- The set of member node ids of the proposed circuit. -/
def member_id_set (p : CircuitProposal) : Finset String :=
  (p.circuit.members.map (fun m => m.node_id)).toFinset

/-! ## Helper lemmas -/

theorem vote_ne_reject_iff (v : Vote) : v ≠ Vote.reject ↔ v = Vote.accept := by
  cases v <;> simp

theorem all_contains_iff (a b : List String) :
    ((a.all fun n => b.contains n) = true ∧ (b.all fun n => a.contains n) = true)
      ↔ a.toFinset = b.toFinset := by
  simp only [List.all_eq_true]
  constructor
  · rintro ⟨h1, h2⟩
    ext x
    simp only [List.mem_toFinset]
    constructor
    · intro hx
      have := h1 x hx
      simpa using this
    · intro hx
      have := h2 x hx
      simpa using this
  · intro h
    constructor <;> intro x hx
    · have hmem : x ∈ b := by
        have := Finset.ext_iff.mp h x
        simp only [List.mem_toFinset] at this
        exact this.mp hx
      simpa using hmem
    · have hmem : x ∈ a := by
        have := Finset.ext_iff.mp h x
        simp only [List.mem_toFinset] at this
        exact this.mpr hx
      simpa using hmem

theorem filter_ne_toFinset (l : List String) (r : String) :
    ((l.filter fun n => n != r).toFinset) = l.toFinset.erase r := by
  ext x
  simp only [List.mem_toFinset, List.mem_filter, Finset.mem_erase,
    bne_iff_ne, ne_eq]
  tauto

/-- Characterisation of `check_approved`: rejected exactly when some vote is
a reject; otherwise accepted exactly when the voter set equals the member
set minus the requester; pending otherwise. -/
theorem check_approved_cases (s : AdminServiceShared) (p : CircuitProposal) :
    (s.check_approved p = .rejected ↔ ∃ v ∈ p.votes, v.vote = Vote.reject)
    ∧ (s.check_approved p = .accepted ↔
        ((∀ v ∈ p.votes, v.vote = Vote.accept)
          ∧ voter_id_set p = (member_id_set p).erase p.requester_node_id))
    ∧ (s.check_approved p = .pending ↔
        ((∀ v ∈ p.votes, v.vote = Vote.accept)
          ∧ voter_id_set p ≠ (member_id_set p).erase p.requester_node_id)) := by
  have hset :
      (((p.circuit.members.map (fun m => m.node_id)).filter
          (fun n => n != p.requester_node_id)).all
            (fun n => (p.votes.map (fun v => v.voter_node_id)).contains n)
        && (p.votes.map (fun v => v.voter_node_id)).all
            (fun n => ((p.circuit.members.map (fun m => m.node_id)).filter
              (fun n => n != p.requester_node_id)).contains n)) = true
      ↔ voter_id_set p = (member_id_set p).erase p.requester_node_id := by
    rw [Bool.and_eq_true]
    rw [all_contains_iff]
    rw [filter_ne_toFinset]
    unfold voter_id_set member_id_set
    exact eq_comm
  by_cases hrej : ∃ v ∈ p.votes, v.vote = Vote.reject
  · have hany : p.votes.any (fun v => v.vote == Vote.reject) = true := by
      simpa [List.any_eq_true] using hrej
    have hno : ¬ (∀ v ∈ p.votes, v.vote = Vote.accept) := by
      obtain ⟨v, hv, hvr⟩ := hrej
      intro hall
      have := hall v hv
      rw [this] at hvr
      exact absurd hvr (by simp)
    refine ⟨?_, ?_, ?_⟩ <;>
      simp [AdminServiceShared.check_approved, hany, hrej, hno]
  · have hany : p.votes.any (fun v => v.vote == Vote.reject) = false := by
      rw [List.any_eq_false]
      intro v hv
      simp only [beq_iff_eq]
      intro hvr
      exact hrej ⟨v, hv, hvr⟩
    have hall : ∀ v ∈ p.votes, v.vote = Vote.accept := by
      intro v hv
      rw [← vote_ne_reject_iff]
      intro hvr
      exact hrej ⟨v, hv, hvr⟩
    unfold AdminServiceShared.check_approved
    rw [hany]
    simp only [Bool.false_eq_true, if_false]
    by_cases heq :
        voter_id_set p = (member_id_set p).erase p.requester_node_id
    · have hb := hset.mpr heq
      rw [hb]
      refine ⟨?_, ?_, ?_⟩
      · exact iff_of_false (by simp) hrej
      · exact iff_of_true (by simp) ⟨hall, heq⟩
      · exact iff_of_false (by simp) (fun h => h.2 heq)
    · have hb : (((p.circuit.members.map (fun m => m.node_id)).filter
          (fun n => n != p.requester_node_id)).all
            (fun n => (p.votes.map (fun v => v.voter_node_id)).contains n)
        && (p.votes.map (fun v => v.voter_node_id)).all
            (fun n => ((p.circuit.members.map (fun m => m.node_id)).filter
              (fun n => n != p.requester_node_id)).contains n)) = false := by
        rw [← Bool.not_eq_true]
        intro hcontra
        exact heq (hset.mp hcontra)
      rw [hb]
      refine ⟨?_, ?_, ?_⟩
      · exact iff_of_false (by simp) hrej
      · exact iff_of_false (by simp) (fun h => heq h.2)
      · exact iff_of_true (by simp) ⟨hall, heq⟩

/-! ## Claim theorems: vote tallying -/

/-- C2: `check_approved` returns Rejected if any vote in the vote list is a
Reject; otherwise it returns Accepted if the set of voter node ids equals
the set of member node ids of the proposed circuit minus the
`requester_node_id`; otherwise it returns Pending. -/
theorem C2_check_approved_tally (s : AdminServiceShared)
    (p : CircuitProposal) :
    (s.check_approved p = .rejected ↔ ∃ v ∈ p.votes, v.vote = Vote.reject)
    ∧ (s.check_approved p = .accepted ↔
        ((∀ v ∈ p.votes, v.vote = Vote.accept)
          ∧ voter_id_set p = (member_id_set p).erase p.requester_node_id))
    ∧ (s.check_approved p = .pending ↔
        ((∀ v ∈ p.votes, v.vote = Vote.accept)
          ∧ voter_id_set p ≠ (member_id_set p).erase p.requester_node_id)) :=
  check_approved_cases s p

/-- C8: a proposal with no Reject votes but with at least one vote whose
voter is outside (members minus requester) is tallied Pending, never
Accepted: the tally demands set equality, not inclusion. -/
theorem C8_stray_vote_blocks_acceptance (s : AdminServiceShared)
    (p : CircuitProposal)
    (hnr : ∀ v ∈ p.votes, v.vote = Vote.accept)
    (v : VoteRecord) (hv : v ∈ p.votes)
    (hstray : v.voter_node_id ∉ (member_id_set p).erase p.requester_node_id) :
    s.check_approved p = .pending := by
  refine (check_approved_cases s p).2.2.mpr ⟨hnr, ?_⟩
  intro heq
  apply hstray
  rw [← heq]
  unfold voter_id_set
  rw [List.mem_toFinset, List.mem_map]
  exact ⟨v, hv, rfl⟩

/-! ## Concrete sample data for witnesses -/

/-- A 33-byte sample public key. -/
def sample_key : Bytes := List.replicate 33 1

/-- Sample service owned by `node_a`. -/
def sample_service_a : SplinterService :=
  { service_id := "aaaa", service_type := "scabbard"
    allowed_nodes := ["node_a"], arguments := [] }

/-- Sample service owned by `node_b`. -/
def sample_service_b : SplinterService :=
  { service_id := "bbbb", service_type := "scabbard"
    allowed_nodes := ["node_b"], arguments := [] }

/-- Sample two-party circuit definition. -/
def sample_circuit : Circuit :=
  { circuit_id := "abcDE-F0123"
    roster := [sample_service_a, sample_service_b]
    members := [{ node_id := "node_a", endpoints := ["tcp://a:8080"] },
                { node_id := "node_b", endpoints := ["tcp://b:8080"] }]
    authorization_type := .trust
    persistence := .any
    durability := .noDurability
    routes := .any
    circuit_management_type := "gameroom"
    display_name := ""
    circuit_version := 2
    circuit_status := .unset }

/-- A concrete coordinator state (self is `node_a`, permissive verifiers,
empty store and queues). -/
def base_shared : AdminServiceShared :=
  { node_id := "node_a"
    uninitialized_circuits := []
    pending_consensus_disbanded_circuits := []
    peer_refs := fun _ => 0
    network_sender := true
    sent_messages := []
    unpeered_payloads := []
    pending_protocol_payloads := []
    service_protocols := fun _ => none
    pending_circuit_payloads := []
    pending_consensus_proposals := []
    pending_changes := none
    current_consensus_verifiers := []
    proposal_sender := true
    forwarded_proposals := []
    admin_store := { proposals := [], circuits := [], nodes := [] }
    event_store := { events := [], next_id := 0, fail := false }
    event_subscribers := []
    routing_circuits := []
    key_verifier := fun _ _ => true
    key_permission_manager := fun _ _ => true
    signature_verifier := fun _ _ _ => .ok true
    peer_connector := fun _ => true
    hash_circuit := fun _ => "circuit-hash"
    hash_proposal := fun _ => "proposal-hash"
    orchestrator_supported_types := ["scabbard"]
    orchestrator_initialize_service := fun _ _ => .ok ()
    orchestrator_stop_service := fun _ => .ok ()
    orchestrator_purge_service := fun _ => .ok () }

/-- Sample proposal: `node_b` (the only non-requester member) voted
accept. -/
def c2_proposal : CircuitProposal :=
  { proposal_type := .create
    circuit_id := "abcDE-F0123"
    circuit_hash := "circuit-hash"
    circuit := sample_circuit
    requester := sample_key
    requester_node_id := "node_a"
    votes := [{ public_key := sample_key, vote := .accept
                voter_node_id := "node_b" }] }

/-- Sample proposal carrying a single stray vote from non-member
`node_x`. -/
def c8_proposal : CircuitProposal :=
  { proposal_type := .create
    circuit_id := "abcDE-F0123"
    circuit_hash := "circuit-hash"
    circuit := sample_circuit
    requester := sample_key
    requester_node_id := "node_a"
    votes := [{ public_key := sample_key, vote := .accept
                voter_node_id := "node_x" }] }

/-- Witness for C2: on the sample proposal where exactly the non-requester
member voted accept the tally is Accepted. -/
theorem C2_check_approved_tally_witness :
    base_shared.check_approved c2_proposal = .accepted :=
  (C2_check_approved_tally base_shared c2_proposal).2.1.mpr
    ⟨by decide, by decide⟩

/-- Witness for C8: a single stray vote from non-member `node_x` leaves the
sample proposal Pending. -/
theorem C8_stray_vote_blocks_acceptance_witness :
    base_shared.check_approved c8_proposal = .pending :=
  C8_stray_vote_blocks_acceptance base_shared c8_proposal (by decide)
    { public_key := sample_key, vote := .accept, voter_node_id := "node_x" }
    (by decide) (by decide)

/-! ## Claim theorems: event delivery -/

/-- C9: when the event store fails to persist an event, `send_event`
returns with the coordinator completely unchanged — no error is signalled
to the caller (the return type carries none), the event is not persisted,
and no subscriber receives it. -/
theorem C9_send_event_swallows_store_failure (s : AdminServiceShared)
    (circuit_management_type : String) (event : AdminServiceEvent)
    (h : s.event_store.fail = true) :
    s.send_event circuit_management_type event = s := by
  unfold AdminServiceShared.send_event EventStoreState.add_event
  rw [h]
  rfl

/-- A coordinator whose event store rejects writes. -/
def failing_event_store_shared : AdminServiceShared :=
  { base_shared with event_store := { events := [], next_id := 0, fail := true } }

/-- Witness for C9. -/
theorem C9_send_event_swallows_store_failure_witness :
    failing_event_store_shared.send_event "gameroom"
        (.proposalSubmitted c2_proposal) = failing_event_store_shared :=
  C9_send_event_swallows_store_failure failing_event_store_shared "gameroom"
    (.proposalSubmitted c2_proposal) rfl

/-! ## Claim theorems: purge tolerates service-purge failures -/

theorem get_circuit_after_remove (st : AdminStore) (circuit_id : String) :
    (st.remove_circuit circuit_id).get_circuit circuit_id = none := by
  unfold AdminStore.remove_circuit AdminStore.get_circuit
  rw [List.find?_eq_none]
  intro c hc
  have := (List.mem_filter.mp hc).2
  simpa using this

/-- C10: `purge_services` returns Ok regardless of per-service purge
outcomes (failures are only logged), so a purge of an existing circuit
always proceeds to remove the circuit record from the admin store. -/
theorem C10_purge_services_failures_only_logged (s : AdminServiceShared)
    (circuit_id : String) (stored : StoreCircuit)
    (h : s.admin_store.get_circuit circuit_id = some stored) :
    s.purge_services circuit_id stored.roster = .ok ()
    ∧ (s.purge_circuit circuit_id).1 = .ok ()
    ∧ ((s.purge_circuit circuit_id).2).admin_store.get_circuit circuit_id
        = none := by
  refine ⟨rfl, ?_, ?_⟩
  · unfold AdminServiceShared.purge_circuit
    rw [h]
    simp [AdminServiceShared.purge_services, AdminServiceShared.remove_circuit, h]
  · unfold AdminServiceShared.purge_circuit
    rw [h]
    simp [AdminServiceShared.purge_services, AdminServiceShared.remove_circuit,
      h, get_circuit_after_remove]

/-- The sample circuit as a disbanded store record. -/
def sample_disbanded_circuit : StoreCircuit :=
  { sample_circuit.toStoreCircuit with circuit_status := .disbanded }

/-- A coordinator holding a disbanded circuit whose local service purge
always fails. -/
def failing_purge_shared : AdminServiceShared :=
  { base_shared with
      admin_store :=
        { proposals := []
          circuits := [sample_disbanded_circuit]
          nodes := sample_circuit.members }
      orchestrator_purge_service := fun _ => .error "disk error" }

/-- Witness for C10: even though every local service purge fails, the purge
request succeeds and the circuit record is removed. -/
theorem C10_purge_services_failures_only_logged_witness :
    failing_purge_shared.purge_services "abcDE-F0123"
        sample_disbanded_circuit.roster = .ok ()
    ∧ (failing_purge_shared.purge_circuit "abcDE-F0123").1 = .ok ()
    ∧ ((failing_purge_shared.purge_circuit "abcDE-F0123").2).admin_store.get_circuit
        "abcDE-F0123" = none :=
  C10_purge_services_failures_only_logged failing_purge_shared "abcDE-F0123"
    sample_disbanded_circuit (by decide)

/-! ## Claim theorems: purge validation -/

theorem validate_key_error_form (s : AdminServiceShared) (k : Bytes)
    (e : AdminSharedError) (h : s.validate_key k = .error e) :
    ∃ msg, e = .validationFailed msg := by
  unfold AdminServiceShared.validate_key at h
  split at h
  · cases h
    exact ⟨_, rfl⟩
  · cases h

theorem validate_purge_rejects_of (s : AdminServiceShared)
    (circuit_id : String) (key : Bytes) (requester_node_id : String)
    (protocol : Nat)
    (hcond : s.admin_store.get_circuit circuit_id = none
      ∨ (∃ sc, s.admin_store.get_circuit circuit_id = some sc
           ∧ sc.circuit_status = StoreCircuitStatus.active)
      ∨ requester_node_id ≠ s.node_id) :
    ∃ msg, s.validate_purge_request circuit_id key requester_node_id protocol
      = .error (.validationFailed msg) := by
  unfold AdminServiceShared.validate_purge_request
  split
  · exact ⟨_, rfl⟩
  split
  · exact ⟨_, rfl⟩
  split
  · exact ⟨_, rfl⟩
  rename_i hproto hempty hnode
  split
  · rename_i e hkey
    obtain ⟨msg, rfl⟩ := validate_key_error_form s key e hkey
    exact ⟨msg, rfl⟩
  split
  · exact ⟨_, rfl⟩
  split
  · exact ⟨_, rfl⟩
  split
  · exact ⟨_, rfl⟩
  rename_i stored_circuit hstored
  split
  · exact ⟨_, rfl⟩
  split
  · exact ⟨_, rfl⟩
  exfalso
  have hrid : requester_node_id = s.node_id := by
    simpa using hnode
  rename_i hnotactive _
  rcases hcond with hnone | ⟨sc, hsc, hact⟩ | hne
  · rw [hnone] at hstored
    cases hstored
  · rw [hsc] at hstored
    cases hstored
    simp [hact] at hnotactive
  · exact hne hrid

/-- C6: `validate_purge_request` rejects — and `submit` of the purge payload
returns an error leaving the coordinator state completely unchanged (so no
event is emitted and nothing is mutated) — whenever the named circuit does
not exist, or it is still Active, or the requester node is not the local
node. -/
theorem C6_purge_validation_rejects (s : AdminServiceShared)
    (payload : CircuitManagementPayload)
    (haction : payload.header.action = PayloadAction.circuitPurgeRequest)
    (hcond : s.admin_store.get_circuit payload.circuit_purge_request = none
      ∨ (∃ sc, s.admin_store.get_circuit payload.circuit_purge_request = some sc
           ∧ sc.circuit_status = StoreCircuitStatus.active)
      ∨ payload.header.requester_node_id ≠ s.node_id) :
    (∃ msg, s.validate_purge_request payload.circuit_purge_request
        payload.header.requester payload.header.requester_node_id
        ADMIN_SERVICE_PROTOCOL_VERSION = .error (.validationFailed msg))
    ∧ ∃ e, s.submit payload = (.error e, s) := by
  obtain ⟨msg, hval⟩ := validate_purge_rejects_of s
    payload.circuit_purge_request payload.header.requester
    payload.header.requester_node_id ADMIN_SERVICE_PROTOCOL_VERSION hcond
  refine ⟨⟨msg, hval⟩, ?_⟩
  unfold AdminServiceShared.submit
  cases hv1 : s.validate_circuit_management_payload payload payload.header with
  | error e =>
    simp only [hv1]
    exact ⟨_, rfl⟩
  | ok u =>
    cases u
    cases hv2 : s.verify_signature payload with
    | error m =>
      simp only [hv1, hv2]
      exact ⟨_, rfl⟩
    | ok b =>
      simp only [hv1, hv2, haction, hval]
      exact ⟨_, rfl⟩

/-- A coordinator whose store holds the sample circuit still Active. -/
def c6_shared : AdminServiceShared :=
  { base_shared with
      admin_store :=
        { proposals := []
          circuits := [sample_circuit.toStoreCircuit]
          nodes := sample_circuit.members } }

/-- A purge payload for the sample circuit submitted by the local node. -/
def c6_payload : CircuitManagementPayload :=
  { header_bytes := [1]
    header := { action := .circuitPurgeRequest, requester := sample_key
                requester_node_id := "node_a" }
    signature := [1]
    circuit_create_request := sample_circuit
    circuit_proposal_vote := { circuit_id := "", circuit_hash := ""
                               vote := .unset }
    circuit_disband_request := ""
    circuit_purge_request := "abcDE-F0123"
    circuit_abandon := "" }

/-- Witness for C6: purging the Active sample circuit is rejected and the
state is untouched. -/
theorem C6_purge_validation_rejects_witness :
    (∃ msg, c6_shared.validate_purge_request "abcDE-F0123" sample_key "node_a"
        ADMIN_SERVICE_PROTOCOL_VERSION = .error (.validationFailed msg))
    ∧ ∃ e, c6_shared.submit c6_payload = (.error e, c6_shared) :=
  C6_purge_validation_rejects c6_shared c6_payload rfl
    (Or.inr (Or.inl ⟨sample_circuit.toStoreCircuit, by decide, by decide⟩))

/-! ## Claim theorems: disband validation -/

theorem validate_key_ok_iff (s : AdminServiceShared) (k : Bytes) :
    s.validate_key k = .ok () ↔ k.length = 33 := by
  unfold AdminServiceShared.validate_key
  constructor
  · intro h
    split at h
    · cases h
    · rename_i hlen
      simpa using hlen
  · intro h
    rw [if_neg]
    simp [h]

/-- C4 (amended): `validate_disband_circuit` succeeds exactly when the
protocol equals the current admin protocol version, the requester node id
is non-empty, the requester key is 33 bytes, registered for the requester
node, and granted the proposer role, no proposal exists for the circuit id,
and the stored circuit exists, is Active, and has `circuit_version` at
least `CIRCUIT_PROTOCOL_VERSION` (not exactly equal: newer schema versions
also pass). -/
theorem C4_validate_disband_success_iff (s : AdminServiceShared)
    (circuit : Circuit) (key : Bytes) (requester_node_id : String)
    (protocol : Nat) :
    s.validate_disband_circuit circuit key requester_node_id protocol = .ok ()
    ↔ (protocol = ADMIN_SERVICE_PROTOCOL_VERSION
       ∧ requester_node_id ≠ ""
       ∧ key.length = 33
       ∧ s.key_verifier requester_node_id key = true
       ∧ s.key_permission_manager key PROPOSER_ROLE = true
       ∧ s.admin_store.get_proposal circuit.circuit_id = none
       ∧ ∃ sc, s.admin_store.get_circuit circuit.circuit_id = some sc
           ∧ sc.circuit_status = StoreCircuitStatus.active
           ∧ CIRCUIT_PROTOCOL_VERSION ≤ sc.circuit_version) := by
  constructor
  · intro h
    unfold AdminServiceShared.validate_disband_circuit at h
    split at h
    · cases h
    split at h
    · cases h
    rename_i hproto hempty
    split at h
    · cases h
    rename_i u hkey
    split at h
    · cases h
    split at h
    · cases h
    split at h
    · cases h
    rename_i hverify hperm hprop
    split at h
    · cases h
    rename_i stored_circuit hstored
    split at h
    · cases h
    split at h
    · cases h
    rename_i hstatus hversion
    exact ⟨by simpa using hproto,
      by simpa [String.isEmpty_iff] using hempty,
      (validate_key_ok_iff s key).mp hkey,
      by simpa using hverify, by simpa using hperm,
      Option.not_isSome_iff_eq_none.mp (by simpa using hprop),
      stored_circuit, hstored, by simpa using hstatus,
      Nat.not_lt.mp hversion⟩
  · rintro ⟨hp, hr, hk, hv, hpm, hgp, sc, hgc, hact, hver⟩
    unfold AdminServiceShared.validate_disband_circuit
    rw [hp, (validate_key_ok_iff s key).mpr hk, hgc]
    simp [String.isEmpty_iff, hr, hv, hpm, hgp, hact, Nat.not_lt.mpr hver]

/-- The sample circuit stored as Active with schema version 3 (newer than
`CIRCUIT_PROTOCOL_VERSION`). -/
def c4_v3_circuit : StoreCircuit :=
  { sample_circuit.toStoreCircuit with circuit_version := 3 }

/-- A second Active circuit at exactly the current schema version. -/
def c4_v2_circuit : StoreCircuit :=
  { sample_circuit.toStoreCircuit with circuit_id := "vwxYZ-01234" }

/-- The proposed-circuit argument naming the second circuit. -/
def c4_other_circuit : Circuit :=
  { sample_circuit with circuit_id := "vwxYZ-01234" }

/-- A coordinator storing both circuits of the C4 counterexample. -/
def c4_shared : AdminServiceShared :=
  { base_shared with
      admin_store :=
        { proposals := []
          circuits := [c4_v3_circuit, c4_v2_circuit]
          nodes := sample_circuit.members } }

/-- Counterexample for C4 as stated.  First half: a disband of an Active
circuit whose `circuit_version` is 3, different from
`CIRCUIT_PROTOCOL_VERSION`, succeeds although the claim requires a
validation error in that case.  Second half: with an empty
`requester_node_id`, every condition listed by the claim holds (the key is
permitted for the requester node by the configured verifier, the circuit
exists, is Active and at the current version, no proposal is pending), yet
validation returns an error. -/
theorem C4_validate_disband_claim_counterexample :
    (c4_shared.validate_disband_circuit sample_circuit sample_key "node_a"
        ADMIN_SERVICE_PROTOCOL_VERSION = .ok ()
      ∧ c4_shared.admin_store.get_circuit "abcDE-F0123" = some c4_v3_circuit
      ∧ c4_v3_circuit.circuit_status = StoreCircuitStatus.active
      ∧ c4_v3_circuit.circuit_version ≠ CIRCUIT_PROTOCOL_VERSION)
    ∧ (c4_shared.validate_disband_circuit c4_other_circuit sample_key ""
        ADMIN_SERVICE_PROTOCOL_VERSION
          = .error (.validationFailed "requester_node_id is empty")
      ∧ c4_shared.key_verifier "" sample_key = true
      ∧ sample_key.length = 33
      ∧ c4_shared.key_permission_manager sample_key PROPOSER_ROLE = true
      ∧ c4_shared.admin_store.get_proposal "vwxYZ-01234" = none
      ∧ c4_shared.admin_store.get_circuit "vwxYZ-01234" = some c4_v2_circuit
      ∧ c4_v2_circuit.circuit_status = StoreCircuitStatus.active
      ∧ c4_v2_circuit.circuit_version = CIRCUIT_PROTOCOL_VERSION) := by
  refine ⟨⟨?_, ?_, ?_, ?_⟩, ?_, ?_, ?_, ?_, ?_, ?_, ?_, ?_⟩ <;> decide

/-- Witness for the amended C4: disbanding the version-2 Active circuit
with a registered proposer key succeeds. -/
theorem C4_validate_disband_success_iff_witness :
    c4_shared.validate_disband_circuit c4_other_circuit sample_key "node_a"
      ADMIN_SERVICE_PROTOCOL_VERSION = .ok () :=
  (C4_validate_disband_success_iff c4_shared c4_other_circuit sample_key
      "node_a" ADMIN_SERVICE_PROTOCOL_VERSION).mpr
    ⟨rfl, by decide, by decide, rfl, rfl, by decide, c4_v2_circuit,
      by decide, rfl, by decide⟩

/-! ## Claim theorems: signature verification gate -/

/-- A coordinator whose signature verifier reports that signatures do not
verify (returning `Ok(false)`, not an error), holding the disbanded sample
circuit. -/
def c1_shared : AdminServiceShared :=
  { base_shared with
      signature_verifier := fun _ _ _ => .ok false
      admin_store :=
        { proposals := []
          circuits := [sample_disbanded_circuit]
          nodes := sample_circuit.members } }

/-- C1, evaluated at the failing input: the configured verifier does NOT
verify the payload signature (it returns `Ok(false)`), yet `submit` returns
`Ok` and the purge action IS dispatched — the stored circuit is removed.
`submit` only propagates verifier errors (`verify_signature(..)?` at source
line 1288) and discards the returned boolean, so a well-formed but
unverified payload passes. -/
theorem C1_unverified_signature_still_dispatched :
    c1_shared.verify_signature c6_payload = .ok false
    ∧ (c1_shared.submit c6_payload).1 = .ok ()
    ∧ c1_shared.admin_store.get_circuit "abcDE-F0123"
        = some sample_disbanded_circuit
    ∧ ((c1_shared.submit c6_payload).2).admin_store.get_circuit "abcDE-F0123"
        = none := by
  refine ⟨rfl, ?_, ?_, ?_⟩ <;> decide

/-! ## Claim theorems: protocol-version-zero reply -/

theorem any_beq_eq_contains (l : List String) (x : String) :
    (l.any fun m => m == x) = l.contains x := by
  by_cases h : x ∈ l
  · simp [h, List.any_eq_true]
  · simp [h]
    exact fun m hm he => h (he ▸ hm)

theorem remove_peer_ref_foldl (ms : List String) (st : AdminServiceShared) :
    ms.foldl (fun st2 p => st2.remove_peer_ref p) st
      = { st with peer_refs := fun n => st.peer_refs n - ms.count n } := by
  induction ms generalizing st with
  | nil =>
    have h : (fun n => st.peer_refs n - List.count n ([] : List String))
        = st.peer_refs := by
      funext n
      simp
    rw [List.foldl_nil, h]
  | cons m ms ih =>
    rw [List.foldl_cons, ih]
    unfold AdminServiceShared.remove_peer_ref
    congr 1
    funext n
    by_cases h : n = m
    · subst h
      simp only [beq_self_eq_true, if_true, if_pos rfl, List.count_cons,
        Nat.sub_sub]
      omega
    · have h1 : (n == m) = false := by simp [h]
      have h2 : (m == n) = false := by
        simp only [beq_eq_false_iff_ne, ne_eq]
        exact Ne.symm h
      simp [h1, List.count_cons, h2]

theorem remove_members_foldl (ready : List PendingPayload)
    (st : AdminServiceShared) :
    ready.foldl
        (fun (st : AdminServiceShared) pp =>
          pp.members.foldl (fun st2 peer => st2.remove_peer_ref peer) st) st
      = { st with peer_refs := fun n => st.peer_refs n
            - (ready.map (fun pp => pp.members.count n)).sum } := by
  induction ready generalizing st with
  | nil =>
    have h : (fun n => st.peer_refs n
        - (List.map (fun pp => pp.members.count n) ([] : List PendingPayload)).sum)
        = st.peer_refs := by
      funext n
      simp
    rw [List.foldl_nil, h]
  | cons pp rest ih =>
    rw [List.foldl_cons, remove_peer_ref_foldl, ih]
    congr 1
    funext n
    simp [Nat.sub_sub]

/-- The per-entry update applied by `on_protocol_agreement(sid, 0)`. -/
def clear_if_missing (sid : String) (pp : PendingPayload) : PendingPayload :=
  if pp.missing_protocol_ids.any (fun m => m == sid) then
    { pp with missing_protocol_ids := [] }
  else pp

theorem zero_waiting_filter (l : List PendingPayload) (sid : String)
    (hq : ∀ pp ∈ l, pp.missing_protocol_ids ≠ []) :
    ((l.map (clear_if_missing sid)).filter
        (fun pp => !pp.missing_protocol_ids.isEmpty))
      = l.filter (fun pp => !(pp.missing_protocol_ids.contains sid)) := by
  induction l with
  | nil => rfl
  | cons pp rest ih =>
    have hne : pp.missing_protocol_ids ≠ [] := hq pp (by simp)
    have ih' := ih (fun q hqq => hq q (by simp [hqq]))
    rw [List.map_cons, List.filter_cons, List.filter_cons]
    by_cases hc : pp.missing_protocol_ids.contains sid = true
    · have hany : (pp.missing_protocol_ids.any fun m => m == sid) = true := by
        rw [any_beq_eq_contains]
        exact hc
      have hmem : sid ∈ pp.missing_protocol_ids := by simpa using hc
      simp [clear_if_missing, hany, hmem, ih']
    · have hany : (pp.missing_protocol_ids.any fun m => m == sid) = false := by
        rw [any_beq_eq_contains]
        simpa using hc
      have hmem : sid ∉ pp.missing_protocol_ids := by simpa using hc
      have hemp : pp.missing_protocol_ids.isEmpty = false := by
        simpa [List.isEmpty_iff] using hne
      simp [clear_if_missing, hany, hemp, hmem, ih']

theorem zero_ready_members (l : List PendingPayload) (sid : String)
    (hq : ∀ pp ∈ l, pp.missing_protocol_ids ≠ []) :
    (((l.map (clear_if_missing sid)).filter
        (fun pp => pp.missing_protocol_ids.isEmpty)).map
          (fun pp => pp.members))
      = ((l.filter (fun pp => pp.missing_protocol_ids.contains sid)).map
          (fun pp => pp.members)) := by
  induction l with
  | nil => rfl
  | cons pp rest ih =>
    have hne : pp.missing_protocol_ids ≠ [] := hq pp (by simp)
    have ih' := ih (fun q hqq => hq q (by simp [hqq]))
    rw [List.map_cons, List.filter_cons, List.filter_cons]
    by_cases hc : pp.missing_protocol_ids.contains sid = true
    · have hany : (pp.missing_protocol_ids.any fun m => m == sid) = true := by
        rw [any_beq_eq_contains]
        exact hc
      have hmem : sid ∈ pp.missing_protocol_ids := by simpa using hc
      simp [clear_if_missing, hany, hmem, ih']
    · have hany : (pp.missing_protocol_ids.any fun m => m == sid) = false := by
        rw [any_beq_eq_contains]
        simpa using hc
      have hmem : sid ∉ pp.missing_protocol_ids := by simpa using hc
      have hemp : pp.missing_protocol_ids.isEmpty = false := by
        simpa [List.isEmpty_iff] using hne
      simp [clear_if_missing, hany, hemp, hmem, ih']

/-- C5: on `on_protocol_agreement(service_id, 0)` (given the queue
invariant that queued entries always have missing protocol ids), every
queued entry that references `service_id` is dropped and never forwarded,
one peer ref is released per member occurrence in each dropped entry,
entries not referencing `service_id` stay queued, and no protocol agreement
is recorded for `service_id`. -/
theorem C5_protocol_zero_drops_dependent_payloads (s : AdminServiceShared)
    (service_id : String)
    (hq : ∀ pp ∈ s.pending_protocol_payloads, pp.missing_protocol_ids ≠ []) :
    (s.on_protocol_agreement service_id 0).1 = .ok ()
    ∧ (s.on_protocol_agreement service_id 0).2.pending_protocol_payloads
        = s.pending_protocol_payloads.filter
            (fun pp => !(pp.missing_protocol_ids.contains service_id))
    ∧ (s.on_protocol_agreement service_id 0).2.forwarded_proposals
        = s.forwarded_proposals
    ∧ (s.on_protocol_agreement service_id 0).2.pending_circuit_payloads
        = s.pending_circuit_payloads
    ∧ (s.on_protocol_agreement service_id 0).2.service_protocols
        = s.service_protocols
    ∧ ∀ n, (s.on_protocol_agreement service_id 0).2.peer_refs n
        = s.peer_refs n
          - (((s.pending_protocol_payloads.filter
                (fun pp => pp.missing_protocol_ids.contains service_id)).map
              (fun pp => pp.members)).map (fun ms => ms.count n)).sum := by
  have hmap : (s.pending_protocol_payloads.map (fun pp =>
      if (0 : Nat) == 0 then
        if pp.missing_protocol_ids.any (fun m => m == service_id) then
          { pp with missing_protocol_ids := [] }
        else pp
      else
        { pp with missing_protocol_ids :=
            pp.missing_protocol_ids.filter (fun m => m != service_id) }))
      = s.pending_protocol_payloads.map (clear_if_missing service_id) := by
    apply List.map_congr_left
    intro pp _
    simp [clear_if_missing]
  unfold AdminServiceShared.on_protocol_agreement
  rw [hmap]
  simp only [Nat.zero_eq, beq_self_eq_true, if_true, if_pos rfl]
  rw [remove_members_foldl]
  refine ⟨?_, ?_, ?_, ?_, ?_, ?_⟩
  · trivial
  · exact zero_waiting_filter s.pending_protocol_payloads service_id hq
  · rfl
  · rfl
  · rfl
  · intro n
    have hm := zero_ready_members s.pending_protocol_payloads service_id hq
    have : (((s.pending_protocol_payloads.map
          (clear_if_missing service_id)).filter
            (fun pp => pp.missing_protocol_ids.isEmpty)).map
          (fun pp => pp.members.count n))
        = (((s.pending_protocol_payloads.map
            (clear_if_missing service_id)).filter
              (fun pp => pp.missing_protocol_ids.isEmpty)).map
            (fun pp => pp.members)).map (fun ms => ms.count n) := by
      rw [List.map_map]
      rfl
    simp only [this, hm]

/-- Queued payload waiting on `node_c`. -/
def c5_entry_c : PendingPayload :=
  { unpeered_ids := []
    missing_protocol_ids := ["admin::node_c"]
    payload_type := .circuit c6_payload
    members := ["node_a", "node_c"]
    message_sender := "local" }

/-- Queued payload waiting on `node_b`. -/
def c5_entry_b : PendingPayload :=
  { unpeered_ids := []
    missing_protocol_ids := ["admin::node_b"]
    payload_type := .circuit c6_payload
    members := ["node_a", "node_b"]
    message_sender := "local" }

/-- Coordinator with both payloads queued and one peer ref per node. -/
def c5_shared : AdminServiceShared :=
  { base_shared with
      pending_protocol_payloads := [c5_entry_c, c5_entry_b]
      peer_refs := fun _ => 1 }

/-- Witness for C5: a zero reply from `node_c` drops only the entry that
referenced it, releases refs for its members, and keeps the other entry. -/
theorem C5_protocol_zero_drops_dependent_payloads_witness :
    (c5_shared.on_protocol_agreement "admin::node_c" 0).1 = .ok ()
    ∧ (c5_shared.on_protocol_agreement "admin::node_c" 0).2.pending_protocol_payloads
        = [c5_entry_b]
    ∧ (c5_shared.on_protocol_agreement "admin::node_c" 0).2.peer_refs "node_c" = 0
    ∧ (c5_shared.on_protocol_agreement "admin::node_c" 0).2.peer_refs "node_b" = 1 := by
  have h := C5_protocol_zero_drops_dependent_payloads c5_shared "admin::node_c"
    (by decide)
  refine ⟨h.1, ?_, ?_, ?_⟩
  · rw [h.2.1]
    decide
  · rw [h.2.2.2.2.2 "node_c"]
    decide
  · rw [h.2.2.2.2.2 "node_b"]
    decide

/-! ## Claim theorems: the pending-changes slot -/

theorem send_event_pending_changes (s : AdminServiceShared) (t : String)
    (e : AdminServiceEvent) :
    (s.send_event t e).pending_changes = s.pending_changes := by
  unfold AdminServiceShared.send_event
  split <;> rfl

theorem foldl_remove_node_refs_pc (l : List SplinterNode)
    (st : AdminServiceShared) :
    (l.foldl (fun (st : AdminServiceShared) (node : SplinterNode) =>
        st.remove_peer_ref node.node_id) st).pending_changes
      = st.pending_changes := by
  induction l generalizing st with
  | nil => rfl
  | cons x xs ih =>
    rw [List.foldl_cons]
    exact ih _

theorem cleanup_disband_pc (s : AdminServiceShared) (circuit_id : String) :
    ((s.cleanup_disbanded_circuit_if_members_ready circuit_id).2).pending_changes
      = s.pending_changes := by
  unfold AdminServiceShared.cleanup_disbanded_circuit_if_members_ready
  split
  · split
    · dsimp only
      split
      · split
        · simp [send_event_pending_changes]
        · simp [foldl_remove_node_refs_pc, send_event_pending_changes]
      · rfl
    · rfl
  · rfl

theorem add_pending_disband_pc (s : AdminServiceShared)
    (circuit : CircuitProposal) :
    ((s.add_pending_disbanded_circuit circuit).2).pending_changes
      = s.pending_changes := by
  unfold AdminServiceShared.add_pending_disbanded_circuit
  rw [cleanup_disband_pc]

theorem init_if_ready_pc (s : AdminServiceShared) (circuit_id : String) :
    ((s.initialize_services_if_members_ready circuit_id).2).pending_changes
      = s.pending_changes := by
  unfold AdminServiceShared.initialize_services_if_members_ready
  split
  · split
    · dsimp only
      split
      · split
        · rfl
        · simp [send_event_pending_changes]
      · rfl
    · rfl
  · rfl

theorem add_uninitialized_pc (s : AdminServiceShared)
    (circuit : CircuitProposal) :
    ((s.add_uninitialized_circuit circuit).2).pending_changes
      = s.pending_changes := by
  unfold AdminServiceShared.add_uninitialized_circuit
  rw [init_if_ready_pc]

theorem commit_none_noop (s : AdminServiceShared)
    (h : s.pending_changes = none) :
    s.commit = (.error .noPendingChanges, s) := by
  unfold AdminServiceShared.commit
  rw [h]

theorem commit_disband_block_pc (s : AdminServiceShared)
    (circuit_proposal : CircuitProposal) (signer_public_key : Bytes) :
    ((s.commit_disband_block circuit_proposal signer_public_key).2).pending_changes
      = s.pending_changes := by
  unfold AdminServiceShared.commit_disband_block
  dsimp only
  split
  · split
    · rfl
    · rw [add_pending_disband_pc]
      split <;> simp [send_event_pending_changes]
  · rfl

theorem commit_active_block_pc (s : AdminServiceShared)
    (circuit_proposal : CircuitProposal) (signer_public_key : Bytes) :
    ((s.commit_active_block circuit_proposal signer_public_key).2).pending_changes
      = s.pending_changes := by
  unfold AdminServiceShared.commit_active_block
  dsimp only
  split
  · split
    · rfl
    · rw [add_uninitialized_pc]
      split <;> simp [send_event_pending_changes]
  · rfl

theorem commit_empties_slot (s : AdminServiceShared)
    (ctx : CircuitProposalContext) (h : s.pending_changes = some ctx) :
    (s.commit).2.pending_changes = none := by
  unfold AdminServiceShared.commit
  rw [h]
  simp only []
  split
  · -- accepted
    split
    · rename_i e s1 heq
      have hd := commit_disband_block_pc { s with pending_changes := none }
        ctx.circuit_proposal ctx.signer_public_key
      rw [heq] at hd
      exact hd
    · rename_i s1 heq
      have hd := commit_disband_block_pc { s with pending_changes := none }
        ctx.circuit_proposal ctx.signer_public_key
      rw [heq] at hd
      rw [commit_active_block_pc]
      exact hd
  · -- pending
    split <;> simp [send_event_pending_changes]
  · -- rejected
    split <;> simp [send_event_pending_changes, foldl_remove_node_refs_pc]

/-- C7: `commit` consumes the single pending-changes slot.  When the slot
is filled, committing empties it (whatever transition is applied), and an
immediately following second `commit` returns the `NoPendingChanges` error
with the entire coordinator and store state unchanged — the transition is
never applied twice. -/
theorem C7_commit_consumes_pending_slot (s : AdminServiceShared)
    (ctx : CircuitProposalContext) (h : s.pending_changes = some ctx) :
    (s.commit).2.pending_changes = none
    ∧ (s.commit).2.commit
        = (.error AdminSharedError.noPendingChanges, (s.commit).2) := by
  have h1 := commit_empties_slot s ctx h
  exact ⟨h1, commit_none_noop _ h1⟩

/-- A create proposal with no votes yet. -/
def c7_proposal : CircuitProposal := { c2_proposal with votes := [] }

/-- A coordinator whose pending-changes slot holds the create proposal. -/
def c7_shared : AdminServiceShared :=
  { base_shared with
      pending_changes := some
        { circuit_proposal := c7_proposal
          action := .circuitCreateRequest
          signer_public_key := sample_key } }

/-- Witness for C7. -/
theorem C7_commit_consumes_pending_slot_witness :
    (c7_shared.commit).2.pending_changes = none
    ∧ (c7_shared.commit).2.commit
        = (.error AdminSharedError.noPendingChanges, (c7_shared.commit).2) :=
  C7_commit_consumes_pending_slot c7_shared
    { circuit_proposal := c7_proposal
      action := .circuitCreateRequest
      signer_public_key := sample_key } rfl

/-! ## Claim theorems: the vote-record invariant

The development below establishes which vote-record properties hold in
every proposal the coordinator stores, over all sequences of accepted
operations. -/

/-- The vote-record conditions of the (amended) invariant: no vote by the
requester, and no two votes by the same voter. -/
def vote_list_ok (p : CircuitProposal) : Prop :=
  (∀ v ∈ p.votes, v.voter_node_id ≠ p.requester_node_id)
  ∧ (p.votes.map (fun v => v.voter_node_id)).Nodup

/-- The coordinator-level invariant: every stored proposal and the proposal
in the pending-changes slot satisfy `vote_list_ok`. -/
def proposals_inv (s : AdminServiceShared) : Prop :=
  (∀ p ∈ s.admin_store.proposals, vote_list_ok p)
  ∧ (∀ ctx, s.pending_changes = some ctx → vote_list_ok ctx.circuit_proposal)

theorem proposals_inv_transfer (s s' : AdminServiceShared)
    (h : proposals_inv s)
    (h1 : s'.admin_store.proposals = s.admin_store.proposals)
    (h2 : s'.pending_changes = s.pending_changes) : proposals_inv s' := by
  constructor
  · rw [h1]
    exact h.1
  · intro ctx hctx
    rw [h2] at hctx
    exact h.2 ctx hctx

/-- Shorthand for the two fields the invariant watches. -/
def same_fields (s' s : AdminServiceShared) : Prop :=
  s'.admin_store.proposals = s.admin_store.proposals
  ∧ s'.pending_changes = s.pending_changes

theorem same_fields_refl (s : AdminServiceShared) : same_fields s s :=
  ⟨rfl, rfl⟩

theorem same_fields_trans {s1 s2 s3 : AdminServiceShared}
    (h12 : same_fields s1 s2) (h23 : same_fields s2 s3) :
    same_fields s1 s3 :=
  ⟨h12.1.trans h23.1, h12.2.trans h23.2⟩

theorem send_event_same_fields (s : AdminServiceShared) (t : String)
    (e : AdminServiceEvent) : same_fields (s.send_event t e) s := by
  unfold AdminServiceShared.send_event
  split <;> exact ⟨rfl, rfl⟩

theorem foldl_remove_node_refs_same_fields (l : List SplinterNode)
    (st : AdminServiceShared) :
    same_fields (l.foldl (fun (st : AdminServiceShared) (node : SplinterNode) =>
      st.remove_peer_ref node.node_id) st) st := by
  induction l generalizing st with
  | nil => exact ⟨rfl, rfl⟩
  | cons x xs ih =>
    rw [List.foldl_cons]
    exact same_fields_trans (ih _) ⟨rfl, rfl⟩

theorem foldl_remove_string_refs_same_fields (l : List String)
    (st : AdminServiceShared) :
    same_fields (l.foldl (fun (st2 : AdminServiceShared) p =>
      st2.remove_peer_ref p) st) st := by
  rw [remove_peer_ref_foldl]
  exact ⟨rfl, rfl⟩

theorem send_protocol_request_same_fields (s : AdminServiceShared)
    (node_id : String) :
    same_fields (s.send_protocol_request node_id) s := by
  unfold AdminServiceShared.send_protocol_request
  split
  · split <;> exact ⟨rfl, rfl⟩
  · exact ⟨rfl, rfl⟩

theorem protocol_member_loop_same_fields (nodes : List SplinterNode)
    (s : AdminServiceShared) (missing pending : List String) :
    same_fields (protocol_member_loop s nodes missing pending).1 s := by
  induction nodes generalizing s missing pending with
  | nil => exact ⟨rfl, rfl⟩
  | cons x xs ih =>
    unfold protocol_member_loop
    split
    · exact same_fields_trans (ih _ _ _)
        (send_protocol_request_same_fields s x.node_id)
    · exact ih _ _ _

theorem create_peer_loop_same_fields (nodes : List SplinterNode)
    (s : AdminServiceShared)
    (missing pending_peers pending_members added : List String) :
    same_fields
      (create_peer_loop s nodes missing pending_peers pending_members added).2
      s := by
  induction nodes generalizing s missing pending_peers pending_members added with
  | nil => exact ⟨rfl, rfl⟩
  | cons x xs ih =>
    unfold create_peer_loop
    dsimp only
    split
    · split
      · split
        · exact same_fields_trans (ih _ _ _ _ _) ⟨rfl, rfl⟩
        · exact same_fields_trans (ih _ _ _ _ _) ⟨rfl, rfl⟩
      · exact foldl_remove_string_refs_same_fields added s
    · exact ih _ _ _ _ _

theorem check_connected_vote_same_fields (s : AdminServiceShared)
    (members : List SplinterNode) (payload : CircuitManagementPayload)
    (message_sender : String) :
    same_fields (s.check_connected_peers_payload_vote members payload
      message_sender) s := by
  unfold AdminServiceShared.check_connected_peers_payload_vote
  have h := protocol_member_loop_same_fields members s [] []
  rcases hpl : protocol_member_loop s members [] [] with ⟨s1, missing, pending⟩
  rw [hpl] at h
  simp only [hpl]
  split <;> exact same_fields_trans ⟨rfl, rfl⟩ h

theorem check_connected_disband_same_fields (s : AdminServiceShared)
    (members : List SplinterNode) (payload : CircuitManagementPayload)
    (message_sender : String) :
    same_fields (s.check_connected_peers_payload_disband members payload
      message_sender) s := by
  unfold AdminServiceShared.check_connected_peers_payload_disband
  have h := protocol_member_loop_same_fields members s [] []
  rcases hpl : protocol_member_loop s members [] [] with ⟨s1, missing, pending⟩
  rw [hpl] at h
  simp only [hpl]
  split <;> exact same_fields_trans ⟨rfl, rfl⟩ h

theorem check_connected_create_same_fields (s : AdminServiceShared)
    (members : List SplinterNode) (payload : CircuitManagementPayload)
    (message_sender : String) :
    same_fields (s.check_connected_peers_payload_create members payload
      message_sender).2 s := by
  unfold AdminServiceShared.check_connected_peers_payload_create
  have h := create_peer_loop_same_fields members s [] [] [] []
  rcases hpl : create_peer_loop s members [] [] [] [] with ⟨res, s1⟩
  rw [hpl] at h
  cases res with
  | error e => exact h
  | ok trip =>
    rcases trip with ⟨missing, pp, pm⟩
    dsimp only
    split <;> exact same_fields_trans ⟨rfl, rfl⟩ h

theorem propose_circuit_same_fields (s : AdminServiceShared)
    (payload : CircuitManagementPayload) (message_sender : String) :
    same_fields (s.propose_circuit payload message_sender).2 s :=
  check_connected_create_same_fields s payload.circuit_create_request.members
    payload message_sender

theorem propose_vote_same_fields (s : AdminServiceShared)
    (payload : CircuitManagementPayload) (message_sender : String) :
    same_fields (s.propose_vote payload message_sender).2 s := by
  unfold AdminServiceShared.propose_vote
  split
  · exact ⟨rfl, rfl⟩
  · exact check_connected_vote_same_fields s _ payload message_sender

theorem propose_disband_same_fields (s : AdminServiceShared)
    (payload : CircuitManagementPayload) (requester : Bytes)
    (requester_node_id : String) (message_sender : String) :
    same_fields (s.propose_disband payload requester requester_node_id
      message_sender).2 s := by
  unfold AdminServiceShared.propose_disband
  split
  · exact ⟨rfl, rfl⟩
  · exact check_connected_disband_same_fields s _ payload message_sender

theorem purge_circuit_same_fields (s : AdminServiceShared)
    (circuit_id : String) :
    same_fields (s.purge_circuit circuit_id).2 s := by
  unfold AdminServiceShared.purge_circuit AdminServiceShared.remove_circuit
  split
  · exact ⟨rfl, rfl⟩
  · split
    · exact ⟨rfl, rfl⟩
    · dsimp only
      split <;> exact ⟨rfl, rfl⟩

theorem abandon_circuit_same_fields (s : AdminServiceShared)
    (circuit_id : String) :
    same_fields (s.abandon_circuit circuit_id).2 s := by
  unfold AdminServiceShared.abandon_circuit
  split
  · exact ⟨rfl, rfl⟩
  · dsimp only
    repeat' split
    all_goals
      first
        | exact ⟨rfl, rfl⟩
        | exact same_fields_trans
            (foldl_remove_string_refs_same_fields _ _) ⟨rfl, rfl⟩

theorem cleanup_disband_same_fields (s : AdminServiceShared)
    (circuit_id : String) :
    same_fields (s.cleanup_disbanded_circuit_if_members_ready circuit_id).2
      s := by
  unfold AdminServiceShared.cleanup_disbanded_circuit_if_members_ready
  split
  · split
    · dsimp only
      split
      · split
        · exact send_event_same_fields _ _ _
        · exact same_fields_trans (foldl_remove_node_refs_same_fields _ _)
            (same_fields_trans ⟨rfl, rfl⟩
              (same_fields_trans (send_event_same_fields _ _ _) ⟨rfl, rfl⟩))
      · exact ⟨rfl, rfl⟩
    · exact ⟨rfl, rfl⟩
  · exact ⟨rfl, rfl⟩

theorem add_pending_disband_same_fields (s : AdminServiceShared)
    (circuit : CircuitProposal) :
    same_fields (s.add_pending_disbanded_circuit circuit).2 s := by
  unfold AdminServiceShared.add_pending_disbanded_circuit
  exact same_fields_trans (cleanup_disband_same_fields _ _) ⟨rfl, rfl⟩

theorem add_member_disband_same_fields (s : AdminServiceShared)
    (circuit_id : String) (member_node_id : String) :
    same_fields (s.add_member_ready_to_disband circuit_id member_node_id).2
      s := by
  unfold AdminServiceShared.add_member_ready_to_disband
  exact same_fields_trans (cleanup_disband_same_fields _ _) ⟨rfl, rfl⟩

theorem init_if_ready_same_fields (s : AdminServiceShared)
    (circuit_id : String) :
    same_fields (s.initialize_services_if_members_ready circuit_id).2 s := by
  unfold AdminServiceShared.initialize_services_if_members_ready
  split
  · split
    · dsimp only
      split
      · split
        · exact ⟨rfl, rfl⟩
        · exact same_fields_trans (send_event_same_fields _ _ _) ⟨rfl, rfl⟩
      · exact ⟨rfl, rfl⟩
    · exact ⟨rfl, rfl⟩
  · exact ⟨rfl, rfl⟩

theorem add_uninitialized_same_fields (s : AdminServiceShared)
    (circuit : CircuitProposal) :
    same_fields (s.add_uninitialized_circuit circuit).2 s := by
  unfold AdminServiceShared.add_uninitialized_circuit
  exact same_fields_trans (init_if_ready_same_fields _ _) ⟨rfl, rfl⟩

theorem add_ready_member_same_fields (s : AdminServiceShared)
    (circuit_id : String) (member_node_id : String) :
    same_fields (s.add_ready_member circuit_id member_node_id).2 s := by
  unfold AdminServiceShared.add_ready_member
  exact same_fields_trans (init_if_ready_same_fields _ _) ⟨rfl, rfl⟩

theorem forward_ready_payloads_same_fields (l : List PendingPayload)
    (s : AdminServiceShared) :
    same_fields (forward_ready_payloads s l).2 s := by
  induction l generalizing s with
  | nil => exact ⟨rfl, rfl⟩
  | cons pp rest ih =>
    unfold forward_ready_payloads
    split
    · exact same_fields_trans (ih _) ⟨rfl, rfl⟩
    · dsimp only
      split <;> exact same_fields_trans (ih _) ⟨rfl, rfl⟩

theorem on_protocol_agreement_same_fields (s : AdminServiceShared)
    (service_id : String) (protocol : Nat) :
    same_fields (s.on_protocol_agreement service_id protocol).2 s := by
  unfold AdminServiceShared.on_protocol_agreement
  dsimp only
  split
  · rw [remove_members_foldl]
    exact ⟨rfl, rfl⟩
  · exact same_fields_trans (forward_ready_payloads_same_fields _ _) ⟨rfl, rfl⟩

theorem on_peer_connected_same_fields (s : AdminServiceShared)
    (peer_id : String) :
    same_fields (s.on_peer_connected peer_id).2 s := by
  unfold AdminServiceShared.on_peer_connected
  dsimp only
  split
  · exact ⟨rfl, rfl⟩
  · split
    · exact ⟨rfl, rfl⟩
    · split <;> exact ⟨rfl, rfl⟩

theorem on_peer_disconnected_same_fields (s : AdminServiceShared)
    (peer_id : String) :
    same_fields (s.on_peer_disconnected peer_id) s :=
  ⟨rfl, rfl⟩

theorem submit_same_fields (s : AdminServiceShared)
    (payload : CircuitManagementPayload) :
    same_fields (s.submit payload).2 s := by
  unfold AdminServiceShared.submit
  cases hv1 : s.validate_circuit_management_payload payload payload.header with
  | error e =>
    simp only [hv1]
    exact ⟨rfl, rfl⟩
  | ok u =>
    cases u
    cases hv2 : s.verify_signature payload with
    | error m =>
      simp only [hv1, hv2]
      exact ⟨rfl, rfl⟩
    | ok b =>
      simp only [hv1, hv2]
      cases payload.header.action with
      | unset => exact ⟨rfl, rfl⟩
      | circuitCreateRequest =>
        dsimp only
        split
        · exact ⟨rfl, rfl⟩
        · exact propose_circuit_same_fields s payload "local"
      | circuitProposalVote =>
        dsimp only
        split
        · exact ⟨rfl, rfl⟩
        · split
          · exact ⟨rfl, rfl⟩
          · exact propose_vote_same_fields s payload "local"
      | circuitDisbandRequest =>
        dsimp only
        split
        · exact ⟨rfl, rfl⟩
        · split
          · exact ⟨rfl, rfl⟩
          · exact propose_disband_same_fields s payload _ _ "local"
      | circuitPurgeRequest =>
        dsimp only
        split
        · exact ⟨rfl, rfl⟩
        · exact purge_circuit_same_fields s _
      | circuitAbandon =>
        dsimp only
        split
        · exact ⟨rfl, rfl⟩
        · exact abandon_circuit_same_fields s _

theorem validate_circuit_vote_ok_facts (s : AdminServiceShared)
    (pv : CircuitProposalVote) (key : Bytes) (p : CircuitProposal)
    (nid : String) (h : s.validate_circuit_vote pv key p nid = .ok ()) :
    p.requester_node_id ≠ nid ∧ ∀ v ∈ p.votes, v.voter_node_id ≠ nid := by
  unfold AdminServiceShared.validate_circuit_vote at h
  split at h
  · cases h
  split at h
  · cases h
  split at h
  · cases h
  split at h
  · cases h
  split at h
  · cases h
  split at h
  · cases h
  rename_i hkey hver hreq hdup hrole hhash
  constructor
  · simpa using hreq
  · intro v hv hveq
    apply hdup
    rw [List.any_eq_true]
    exact ⟨v.voter_node_id, List.mem_map.mpr ⟨v, hv, rfl⟩, by simp [hveq]⟩

theorem vote_list_ok_nil (p : CircuitProposal) (h : p.votes = []) :
    vote_list_ok p := by
  constructor
  · intro v hv
    rw [h] at hv
    cases hv
  · rw [h]
    simp

theorem vote_list_ok_append (p : CircuitProposal) (vr : VoteRecord)
    (hp : vote_list_ok p)
    (hreq : vr.voter_node_id ≠ p.requester_node_id)
    (hnew : ∀ v ∈ p.votes, v.voter_node_id ≠ vr.voter_node_id) :
    vote_list_ok { p with votes := p.votes ++ [vr] } := by
  constructor
  · intro v hv
    rcases List.mem_append.mp hv with h1 | h1
    · exact hp.1 v h1
    · rw [List.mem_singleton] at h1
      subst h1
      exact hreq
  · simp only [List.map_append, List.map_cons, List.map_nil]
    rw [List.nodup_append]
    refine ⟨hp.2, by simp, ?_⟩
    intro a ha hb
    simp only [List.mem_singleton] at hb
    rcases List.mem_map.mp ha with ⟨v, hv, rfl⟩
    exact hnew v hv hb

theorem get_proposal_mem (st : AdminStore) (circuit_id : String)
    (p : CircuitProposal) (h : st.get_proposal circuit_id = some p) :
    p ∈ st.proposals := by
  unfold AdminStore.get_proposal at h
  exact List.mem_of_find?_eq_some h

theorem add_proposal_forall (st : AdminStore) (q : CircuitProposal)
    (h : ∀ p ∈ st.proposals, vote_list_ok p) (hq : vote_list_ok q) :
    ∀ p ∈ (st.add_proposal q).proposals, vote_list_ok p := by
  intro p hp
  unfold AdminStore.add_proposal at hp
  rcases List.mem_append.mp hp with h1 | h1
  · exact h p (List.mem_of_mem_filter h1)
  · rw [List.mem_singleton] at h1
    subst h1
    exact hq

theorem upgrade_proposal_forall (st : AdminStore) (circuit_id : String)
    (h : ∀ p ∈ st.proposals, vote_list_ok p) :
    ∀ p ∈ (st.upgrade_proposal_to_circuit circuit_id).proposals,
      vote_list_ok p := by
  intro p hp
  unfold AdminStore.upgrade_proposal_to_circuit at hp
  split at hp
  · exact h p hp
  · exact h p (List.mem_of_mem_filter hp)

theorem make_disband_votes (s : AdminServiceShared) (circuit_id : String)
    (requester : Bytes) (requester_node_id : String) (p : CircuitProposal)
    (h : s.make_disband_request_circuit_proposal circuit_id requester
      requester_node_id = .ok p) : p.votes = [] := by
  unfold AdminServiceShared.make_disband_request_circuit_proposal at h
  split at h
  · cases h
  · cases h
    rfl

theorem propose_change_inv (s : AdminServiceShared)
    (payload : CircuitManagementPayload) (h : proposals_inv s) :
    proposals_inv (s.propose_change payload).2 := by
  unfold AdminServiceShared.propose_change
  cases hv1 : s.validate_circuit_management_payload payload payload.header with
  | error e =>
    simp only [hv1]
    exact h
  | ok u =>
    cases u
    cases hv2 : s.verify_signature payload with
    | error m =>
      simp only [hv1, hv2]
      exact h
    | ok b =>
      simp only [hv1, hv2]
      cases payload.header.action with
      | unset => exact h
      | circuitPurgeRequest => exact h
      | circuitAbandon => exact h
      | circuitCreateRequest =>
        dsimp only
        split
        · exact proposals_inv_transfer s _ h
            (foldl_remove_node_refs_same_fields _ _).1
            (foldl_remove_node_refs_same_fields _ _).2
        · constructor
          · exact h.1
          · intro ctx hctx
            cases hctx
            exact vote_list_ok_nil _ rfl
      | circuitProposalVote =>
        dsimp only
        cases hgp : s.admin_store.get_proposal
            payload.circuit_proposal_vote.circuit_id with
        | none =>
          simp only [hgp]
          exact h
        | some circuit_proposal =>
          simp only [hgp]
          cases hval : s.validate_circuit_vote payload.circuit_proposal_vote
              payload.header.requester circuit_proposal
              payload.header.requester_node_id with
          | error e =>
            simp only [hval]
            split
            · exact proposals_inv_transfer s _ h
                (foldl_remove_node_refs_same_fields _ _).1
                (foldl_remove_node_refs_same_fields _ _).2
            · exact h
          | ok u =>
            cases u
            simp only [hval]
            have hfacts := validate_circuit_vote_ok_facts s _ _ _ _ hval
            have hpok := h.1 circuit_proposal (get_proposal_mem _ _ _ hgp)
            cases payload.circuit_proposal_vote.vote with
            | unset => exact h
            | accept =>
              constructor
              · exact h.1
              · intro ctx hctx
                cases hctx
                exact vote_list_ok_append circuit_proposal _ hpok
                  (fun he => hfacts.1 he.symm) hfacts.2
            | reject =>
              constructor
              · exact h.1
              · intro ctx hctx
                cases hctx
                exact vote_list_ok_append circuit_proposal _ hpok
                  (fun he => hfacts.1 he.symm) hfacts.2
      | circuitDisbandRequest =>
        dsimp only
        cases hgc : s.admin_store.get_circuit payload.circuit_disband_request with
        | none =>
          simp only [hgc]
          exact h
        | some stored =>
          simp only [hgc]
          cases hmk : s.make_disband_request_circuit_proposal
              payload.circuit_disband_request payload.header.requester
              payload.header.requester_node_id with
          | error e =>
            simp only [hmk]
            exact h
          | ok circuit_proposal =>
            simp only [hmk]
            split
            · exact h
            · constructor
              · exact h.1
              · intro ctx hctx
                cases hctx
                exact vote_list_ok_nil _ (make_disband_votes _ _ _ _ _ hmk)

theorem commit_disband_block_inv (s : AdminServiceShared)
    (cp : CircuitProposal) (key : Bytes)
    (h : ∀ p ∈ s.admin_store.proposals, vote_list_ok p) :
    ∀ p ∈ ((s.commit_disband_block cp key).2).admin_store.proposals,
      vote_list_ok p := by
  unfold AdminServiceShared.commit_disband_block
  dsimp only
  split
  · split
    · exact h
    · intro p hp
      rw [(add_pending_disband_same_fields _ _).1] at hp
      revert hp
      split <;> intro hp <;> (try dsimp only at hp) <;>
        rw [(send_event_same_fields _ _ _).1] at hp <;>
        (try dsimp only at hp) <;>
        exact h p (List.mem_of_mem_filter hp)
  · exact h

theorem commit_active_block_inv (s1 : AdminServiceShared)
    (cp : CircuitProposal) (key : Bytes)
    (h : ∀ p ∈ s1.admin_store.proposals, vote_list_ok p) :
    ∀ p ∈ ((s1.commit_active_block cp key).2).admin_store.proposals,
      vote_list_ok p := by
  unfold AdminServiceShared.commit_active_block
  dsimp only
  split
  · split
    · exact upgrade_proposal_forall _ _ h
    · intro p hp
      rw [(add_uninitialized_same_fields _ _).1] at hp
      revert hp
      split <;> intro hp <;> (try dsimp only at hp) <;>
        rw [(send_event_same_fields _ _ _).1] at hp <;>
        (try dsimp only at hp) <;>
        exact upgrade_proposal_forall _ _ h p hp
  · exact h

theorem commit_inv (s : AdminServiceShared) (h : proposals_inv s) :
    proposals_inv (s.commit).2 := by
  unfold AdminServiceShared.commit
  cases hpc : s.pending_changes with
  | none =>
    simp only [hpc]
    exact h
  | some ctx =>
    simp only [hpc]
    have hctx : vote_list_ok ctx.circuit_proposal := h.2 ctx hpc
    split
    · -- accepted
      split
      · rename_i e s1 heq
        constructor
        · have hd := commit_disband_block_inv
            { s with pending_changes := none } ctx.circuit_proposal
            ctx.signer_public_key h.1
          rw [heq] at hd
          exact hd
        · have hpcd := commit_disband_block_pc
            { s with pending_changes := none } ctx.circuit_proposal
            ctx.signer_public_key
          rw [heq] at hpcd
          intro c hc
          rw [hpcd] at hc
          cases hc
      · rename_i s1 heq
        have hd := commit_disband_block_inv
          { s with pending_changes := none } ctx.circuit_proposal
          ctx.signer_public_key h.1
        rw [heq] at hd
        have hpcd := commit_disband_block_pc
          { s with pending_changes := none } ctx.circuit_proposal
          ctx.signer_public_key
        rw [heq] at hpcd
        constructor
        · exact commit_active_block_inv s1 ctx.circuit_proposal
            ctx.signer_public_key hd
        · intro c hc
          rw [commit_active_block_pc] at hc
          rw [hpcd] at hc
          cases hc
    · -- pending
      constructor
      · split <;> intro p hp <;>
          first
            | (rw [(send_event_same_fields _ _ _).1] at hp
               dsimp only at hp
               exact add_proposal_forall _ _ h.1 hctx p hp)
            | (dsimp only at hp
               exact add_proposal_forall _ _ h.1 hctx p hp)
      · split <;> intro c hc <;>
          first
            | (rw [send_event_pending_changes] at hc
               cases hc)
            | cases hc
    · -- rejected
      constructor
      · intro p hp
        rw [(send_event_same_fields _ _ _).1] at hp
        revert hp
        split <;> intro hp
        · rw [(foldl_remove_node_refs_same_fields _ _).1] at hp
          dsimp only at hp
          exact h.1 p (List.mem_of_mem_filter hp)
        · dsimp only at hp
          exact h.1 p (List.mem_of_mem_filter hp)
      · intro c hc
        rw [send_event_pending_changes] at hc
        revert hc
        split <;> intro hc
        · rw [foldl_remove_node_refs_pc] at hc
          cases hc
        · cases hc

/-- The operations of the coordinator, as a reachability relation: a state
is reachable when it arises from a state with an empty proposal store and
an empty pending-changes slot by any sequence of coordinator operations. -/
inductive Reachable : AdminServiceShared → Prop
  | init (s : AdminServiceShared)
      (hp : s.admin_store.proposals = [])
      (hc : s.pending_changes = none) : Reachable s
  | submit (s : AdminServiceShared) (payload : CircuitManagementPayload) :
      Reachable s → Reachable (s.submit payload).2
  | propose_change (s : AdminServiceShared)
      (payload : CircuitManagementPayload) :
      Reachable s → Reachable (s.propose_change payload).2
  | commit (s : AdminServiceShared) : Reachable s → Reachable (s.commit).2
  | rollback (s : AdminServiceShared) : Reachable s → Reachable (s.rollback).2
  | on_peer_connected (s : AdminServiceShared) (peer_id : String) :
      Reachable s → Reachable (s.on_peer_connected peer_id).2
  | on_peer_disconnected (s : AdminServiceShared) (peer_id : String) :
      Reachable s → Reachable (s.on_peer_disconnected peer_id)
  | on_protocol_agreement (s : AdminServiceShared) (service_id : String)
      (protocol : Nat) :
      Reachable s → Reachable (s.on_protocol_agreement service_id protocol).2
  | add_ready_member (s : AdminServiceShared) (circuit_id member_node_id : String) :
      Reachable s → Reachable (s.add_ready_member circuit_id member_node_id).2
  | add_member_ready_to_disband (s : AdminServiceShared)
      (circuit_id member_node_id : String) :
      Reachable s →
      Reachable (s.add_member_ready_to_disband circuit_id member_node_id).2

theorem reachable_proposals_inv (s : AdminServiceShared)
    (h : Reachable s) : proposals_inv s := by
  induction h with
  | init s hp hc =>
    constructor
    · intro p hmem
      rw [hp] at hmem
      cases hmem
    · intro ctx hctx
      rw [hc] at hctx
      cases hctx
  | submit s payload _ ih =>
    exact proposals_inv_transfer s _ ih (submit_same_fields s payload).1
      (submit_same_fields s payload).2
  | propose_change s payload _ ih => exact propose_change_inv s payload ih
  | commit s _ ih => exact commit_inv s ih
  | rollback s _ ih =>
    constructor
    · exact ih.1
    · intro ctx hctx
      cases hctx
  | on_peer_connected s peer_id _ ih =>
    exact proposals_inv_transfer s _ ih
      (on_peer_connected_same_fields s peer_id).1
      (on_peer_connected_same_fields s peer_id).2
  | on_peer_disconnected s peer_id _ ih =>
    exact proposals_inv_transfer s _ ih
      (on_peer_disconnected_same_fields s peer_id).1
      (on_peer_disconnected_same_fields s peer_id).2
  | on_protocol_agreement s service_id protocol _ ih =>
    exact proposals_inv_transfer s _ ih
      (on_protocol_agreement_same_fields s service_id protocol).1
      (on_protocol_agreement_same_fields s service_id protocol).2
  | add_ready_member s circuit_id member_node_id _ ih =>
    exact proposals_inv_transfer s _ ih
      (add_ready_member_same_fields s circuit_id member_node_id).1
      (add_ready_member_same_fields s circuit_id member_node_id).2
  | add_member_ready_to_disband s circuit_id member_node_id _ ih =>
    exact proposals_inv_transfer s _ ih
      (add_member_disband_same_fields s circuit_id member_node_id).1
      (add_member_disband_same_fields s circuit_id member_node_id).2

/-! ## Vote-record invariant: claim, counterexample and witness -/

/-- A valid create request for the sample circuit, proposed by `node_a`. -/
def c3_create_payload : CircuitManagementPayload :=
  { header_bytes := [1]
    header := { action := .circuitCreateRequest, requester := sample_key
                requester_node_id := "node_a" }
    signature := [1]
    circuit_create_request := sample_circuit
    circuit_proposal_vote := { circuit_id := "", circuit_hash := ""
                               vote := .unset }
    circuit_disband_request := ""
    circuit_purge_request := ""
    circuit_abandon := "" }

/-- An accept vote on the sample proposal cast by `node_x`, a node that is
not a member of the proposed circuit. -/
def c3_vote_payload : CircuitManagementPayload :=
  { header_bytes := [1]
    header := { action := .circuitProposalVote, requester := sample_key
                requester_node_id := "node_x" }
    signature := [1]
    circuit_create_request := sample_circuit
    circuit_proposal_vote := { circuit_id := "abcDE-F0123"
                               circuit_hash := "circuit-hash"
                               vote := .accept }
    circuit_disband_request := ""
    circuit_purge_request := ""
    circuit_abandon := "" }

/-- The coordinator after proposing and committing the sample circuit
proposal, then receiving and committing the accept vote from non-member
`node_x` (the vote tallies Pending, so the updated proposal is stored). -/
def c3_state : AdminServiceShared :=
  (((((base_shared.propose_change c3_create_payload).2).commit).2.propose_change
      c3_vote_payload).2.commit).2

/-- The vote record the coordinator stores for the `node_x` vote. -/
def c3_stray_vote : VoteRecord :=
  { public_key := sample_key, vote := .accept, voter_node_id := "node_x" }

/-- The proposal stored after the sequence: it carries exactly the stray
vote. -/
def c3_stray_proposal : CircuitProposal :=
  { proposal_type := .create
    circuit_id := "abcDE-F0123"
    circuit_hash := "circuit-hash"
    circuit := sample_circuit
    requester := sample_key
    requester_node_id := "node_a"
    votes := [c3_stray_vote] }

/-- C3 (amended): after any sequence of coordinator operations starting
from an empty proposal store, every vote v carried by any stored proposal P
satisfies v.voter_node_id ≠ P.requester_node_id, and no two votes of P
share a voter_node_id.  The third conjunct of the claim — that every
voter_node_id is a member node id of P's proposed circuit — does not hold
of the code: `validate_circuit_vote` never compares the voter against the
member list (see the membership counterexample below). -/
theorem C3_vote_records_invariant (s : AdminServiceShared)
    (h : Reachable s) :
    ∀ p ∈ s.admin_store.proposals,
      (∀ v ∈ p.votes, v.voter_node_id ≠ p.requester_node_id) ∧
      (p.votes.map (fun v => v.voter_node_id)).Nodup :=
  (reachable_proposals_inv s h).1

/-- Witness for C3: the amended invariant instantiated at the concrete
reachable state that holds the stray-vote proposal. -/
theorem C3_vote_records_invariant_witness :
    (∀ v ∈ c3_stray_proposal.votes,
      v.voter_node_id ≠ c3_stray_proposal.requester_node_id) ∧
    (c3_stray_proposal.votes.map (fun v => v.voter_node_id)).Nodup :=
  C3_vote_records_invariant c3_state
    (Reachable.commit _
      (Reachable.propose_change _ c3_vote_payload
        (Reachable.commit _
          (Reachable.propose_change _ c3_create_payload
            (Reachable.init base_shared rfl rfl)))))
    c3_stray_proposal (by decide)

/-- Counterexample to the membership conjunct of C3: the coordinator
reaches a state whose stored proposal carries a vote by `node_x`, which is
not a member node id of the proposed circuit — the vote path never checks
the voter against the member list. -/
theorem C3_membership_counterexample :
    Reachable c3_state ∧
    c3_stray_proposal ∈ c3_state.admin_store.proposals ∧
    c3_stray_vote ∈ c3_stray_proposal.votes ∧
    c3_stray_vote.voter_node_id ∉
      c3_stray_proposal.circuit.members.map SplinterNode.node_id :=
  ⟨Reachable.commit _
    (Reachable.propose_change _ c3_vote_payload
      (Reachable.commit _
        (Reachable.propose_change _ c3_create_payload
          (Reachable.init base_shared rfl rfl)))),
   by decide, by decide, by decide⟩

end Splinter
